import Mathlib

/-!
Verification model of the `firewalld` Ansible module
(`plugins/modules/firewalld.py`).

The module reconciles a desired state for firewall primitives (services,
ports, interfaces, rich rules, zone targets, zones, ...) against a daemon
exposing two configuration layers: a runtime ("immediate") layer and a
persistent ("permanent") layer.  The per-kind transaction classes and the
`main` orchestration are embedded below from the source; the generic
`FirewallTransaction` base class (its `run` driver) lives in the
collection's `module_utils`, which is not part of the given sources, and is
therefore modelled from the specification where marked.
-/

namespace Firewalld

/-- Settings of a single firewalld zone, as held by the daemon's
`FirewallClientZoneSettings` object: the membership lists for each rule
primitive, the three boolean flags, and the zone target. -/
structure ZoneSettings where
  services : List String
  ports : List (String × String)
  sourcePorts : List (String × String)
  protocols : List String
  icmpBlocks : List String
  richRules : List String
  interfaces : List String
  sources : List String
  forwardPorts : List (String × String × String × String)
  forward : Bool
  masquerade : Bool
  icmpBlockInversion : Bool
  target : String
deriving DecidableEq

/-- A freshly constructed `FirewallClientZoneSettings()`: empty membership
lists, flags off, target `default`. -/
def defaultZoneSettings : ZoneSettings :=
  ⟨[], [], [], [], [], [], [], [], [], false, false, false, "default"⟩

/-- The whole firewall configuration: the runtime layer and the permanent
layer, each a association list from zone name to its settings. -/
structure FirewallState where
  runtime : List (String × ZoneSettings)
  permanent : List (String × ZoneSettings)
deriving DecidableEq

/-- Add an element to a membership list if not already present (the
behaviour of the daemon's `addX` operations on settings). -/
def addIfAbsent {α : Type} [DecidableEq α] (l : List α) (x : α) : List α :=
  if x ∈ l then l else l ++ [x]

/-- Remove every occurrence of an element from a membership list (the
behaviour of the daemon's `removeX` operations on settings). -/
def removeAll {α : Type} [DecidableEq α] (l : List α) (x : α) : List α :=
  l.filter (fun y => y ≠ x)

/-- Look up a zone by name in a layer (first match). -/
def zlookup : List (String × ZoneSettings) → String → Option ZoneSettings
  | [], _ => none
  | (n, zs) :: rest, k => if n = k then some zs else zlookup rest k

/-- Replace the settings of the named zone in a layer, leaving other zones
untouched. -/
def zupdate : List (String × ZoneSettings) → String → ZoneSettings → List (String × ZoneSettings)
  | [], _, _ => []
  | (n, zs) :: rest, k, v => (n, if n = k then v else zs) :: zupdate rest k v

/-- `getZoneOfInterface`: the (first) permanent zone whose interface list
contains the given interface, if any. -/
def zGetZoneOfInterface : List (String × ZoneSettings) → String → Option String
  | [], _ => none
  | (n, zs) :: rest, i => if i ∈ zs.interfaces then some n else zGetZoneOfInterface rest i

/-- Query a boolean of the named zone's settings; a missing zone is a fatal
daemon error. -/
def readZone (l : List (String × ZoneSettings)) (z : String) (f : ZoneSettings → Bool) :
    Except String Bool :=
  match zlookup l z with
  | none => Except.error "INVALID_ZONE"
  | some zs => Except.ok (f zs)

/-- Fetch the named zone's settings, mutate them, and commit the result back
(the `get_fw_zone_settings` / `update_fw_settings` pattern); a missing zone
is a fatal daemon error. -/
def modifyZone (l : List (String × ZoneSettings)) (z : String) (f : ZoneSettings → ZoneSettings) :
    Except String (List (String × ZoneSettings)) :=
  match zlookup l z with
  | none => Except.error "INVALID_ZONE"
  | some zs => Except.ok (zupdate l z (f zs))

/-- The thirteen rule kinds plus the bare zone-existence kind, each carrying
its action arguments exactly as `main` passes them to the transaction
constructors (lease timeouts are daemon-side expiries and do not affect the
configuration state, so they are carried on the transaction, not here). -/
inductive RuleKind where
  | icmpBlock (block : String)
  | icmpBlockInversion
  | service (name : String)
  | protocol (name : String)
  | forward
  | masquerade
  | port (port protocol : String)
  | sourcePort (port protocol : String)
  | interface (iface : String)
  | richRule (rule : String)
  | source (addr : String)
  | zoneTarget (target : String)
  | zoneExistence
  | forwardPort (port proto toport toaddr : String)
deriving DecidableEq

/-- The fatal message of `ZoneTargetTransaction` and `ZoneTransaction` for
any immediate-layer operation. -/
def zoneTxNotPermanentMsg : String :=
  "Zone operations must be permanent. Make sure you didn\x27t set the \x27permanent\x27 flag to \x27false\x27 or the \x27immediate\x27 flag to \x27true\x27."

/-- A transaction instance: rule kind with its action arguments, the zone it
operates on, the requested desired state, the selected layers, whether the
daemon is offline, the enabled/disabled desired-state vocabularies and the
layer messages set by the subclass constructors. -/
structure Tx where
  kind : RuleKind
  zone : String
  desiredState : String
  permanent : Bool
  immediate : Bool
  fwOffline : Bool
  enabledValues : List String
  disabledValues : List String
  enabledMsg : String
  disabledMsg : String
  timeout : Nat
deriving DecidableEq

/-- `get_enabled_immediate` of every transaction class: query the runtime
layer (or, for the kinds whose source has an explicit offline branch, the
permanent settings when the daemon is offline); fatal for the two
permanent-only kinds. -/
def getEnabledImmediate (canon : String → String) (t : Tx) (s : FirewallState) :
    Except String Bool :=
  match t.kind with
  | RuleKind.icmpBlock b => readZone s.runtime t.zone (fun zs => b ∈ zs.icmpBlocks)
  | RuleKind.icmpBlockInversion => readZone s.runtime t.zone (fun zs => zs.icmpBlockInversion)
  | RuleKind.service sv => readZone s.runtime t.zone (fun zs => sv ∈ zs.services)
  | RuleKind.protocol pr => readZone s.runtime t.zone (fun zs => pr ∈ zs.protocols)
  | RuleKind.forward => readZone s.runtime t.zone (fun zs => zs.forward)
  | RuleKind.masquerade => readZone s.runtime t.zone (fun zs => zs.masquerade)
  | RuleKind.port po pr =>
    if t.fwOffline then readZone s.permanent t.zone (fun zs => (po, pr) ∈ zs.ports)
    else readZone s.runtime t.zone (fun zs => (po, pr) ∈ zs.ports)
  | RuleKind.sourcePort po pr =>
    if t.fwOffline then readZone s.permanent t.zone (fun zs => (po, pr) ∈ zs.sourcePorts)
    else readZone s.runtime t.zone (fun zs => (po, pr) ∈ zs.sourcePorts)
  | RuleKind.interface i =>
    if t.fwOffline then readZone s.permanent t.zone (fun zs => i ∈ zs.interfaces)
    else readZone s.runtime t.zone (fun zs => i ∈ zs.interfaces)
  | RuleKind.richRule r => readZone s.runtime t.zone (fun zs => canon r ∈ zs.richRules)
  | RuleKind.source src => readZone s.runtime t.zone (fun zs => src ∈ zs.sources)
  | RuleKind.zoneTarget _ => Except.error zoneTxNotPermanentMsg
  | RuleKind.zoneExistence => Except.error zoneTxNotPermanentMsg
  | RuleKind.forwardPort po pr tp ta =>
    if t.fwOffline then readZone s.permanent t.zone (fun zs => (po, pr, tp, ta) ∈ zs.forwardPorts)
    else readZone s.runtime t.zone (fun zs => (po, pr, tp, ta) ∈ zs.forwardPorts)

/-- `get_enabled_permanent` of every transaction class: query the fetched
permanent settings snapshot; for the zone-target kind compare the stored
target to the requested one; for zone existence check the zone-name list. -/
def getEnabledPermanent (canon : String → String) (t : Tx) (s : FirewallState) :
    Except String Bool :=
  match t.kind with
  | RuleKind.icmpBlock b => readZone s.permanent t.zone (fun zs => b ∈ zs.icmpBlocks)
  | RuleKind.icmpBlockInversion => readZone s.permanent t.zone (fun zs => zs.icmpBlockInversion)
  | RuleKind.service sv => readZone s.permanent t.zone (fun zs => sv ∈ zs.services)
  | RuleKind.protocol pr => readZone s.permanent t.zone (fun zs => pr ∈ zs.protocols)
  | RuleKind.forward => readZone s.permanent t.zone (fun zs => zs.forward)
  | RuleKind.masquerade => readZone s.permanent t.zone (fun zs => zs.masquerade)
  | RuleKind.port po pr => readZone s.permanent t.zone (fun zs => (po, pr) ∈ zs.ports)
  | RuleKind.sourcePort po pr => readZone s.permanent t.zone (fun zs => (po, pr) ∈ zs.sourcePorts)
  | RuleKind.interface i => readZone s.permanent t.zone (fun zs => i ∈ zs.interfaces)
  | RuleKind.richRule r => readZone s.permanent t.zone (fun zs => canon r ∈ zs.richRules)
  | RuleKind.source src => readZone s.permanent t.zone (fun zs => src ∈ zs.sources)
  | RuleKind.zoneTarget tgt => readZone s.permanent t.zone (fun zs => zs.target = tgt)
  | RuleKind.zoneExistence => Except.ok (zlookup s.permanent t.zone).isSome
  | RuleKind.forwardPort po pr tp ta =>
    readZone s.permanent t.zone (fun zs => (po, pr, tp, ta) ∈ zs.forwardPorts)

/-- Wrap a mutated runtime layer back into the state. -/
def liftRt (s : FirewallState) (r : Except String (List (String × ZoneSettings))) :
    Except String FirewallState :=
  r.map (fun l => { s with runtime := l })

/-- Wrap a mutated permanent layer back into the state. -/
def liftPerm (s : FirewallState) (r : Except String (List (String × ZoneSettings))) :
    Except String FirewallState :=
  r.map (fun l => { s with permanent := l })

/-- `set_enabled_immediate` of every transaction class: add the primitive to
the runtime layer; `changeZoneOfInterface` moves the interface out of every
runtime zone into the target zone; fatal for the two permanent-only kinds.
Rich rules are stored by the daemon in canonical form (`canon`). -/
def setEnabledImmediate (canon : String → String) (t : Tx) (s : FirewallState) :
    Except String FirewallState :=
  match t.kind with
  | RuleKind.icmpBlock b =>
    liftRt s (modifyZone s.runtime t.zone (fun zs => { zs with icmpBlocks := addIfAbsent zs.icmpBlocks b }))
  | RuleKind.icmpBlockInversion =>
    liftRt s (modifyZone s.runtime t.zone (fun zs => { zs with icmpBlockInversion := true }))
  | RuleKind.service sv =>
    liftRt s (modifyZone s.runtime t.zone (fun zs => { zs with services := addIfAbsent zs.services sv }))
  | RuleKind.protocol pr =>
    liftRt s (modifyZone s.runtime t.zone (fun zs => { zs with protocols := addIfAbsent zs.protocols pr }))
  | RuleKind.forward =>
    liftRt s (modifyZone s.runtime t.zone (fun zs => { zs with forward := true }))
  | RuleKind.masquerade =>
    liftRt s (modifyZone s.runtime t.zone (fun zs => { zs with masquerade := true }))
  | RuleKind.port po pr =>
    liftRt s (modifyZone s.runtime t.zone (fun zs => { zs with ports := addIfAbsent zs.ports (po, pr) }))
  | RuleKind.sourcePort po pr =>
    liftRt s (modifyZone s.runtime t.zone (fun zs => { zs with sourcePorts := addIfAbsent zs.sourcePorts (po, pr) }))
  | RuleKind.interface i =>
    let cleared := s.runtime.map (fun p => (p.1, { p.2 with interfaces := removeAll p.2.interfaces i }))
    liftRt s (modifyZone cleared t.zone (fun zs => { zs with interfaces := addIfAbsent zs.interfaces i }))
  | RuleKind.richRule r =>
    liftRt s (modifyZone s.runtime t.zone (fun zs => { zs with richRules := addIfAbsent zs.richRules (canon r) }))
  | RuleKind.source src =>
    liftRt s (modifyZone s.runtime t.zone (fun zs => { zs with sources := addIfAbsent zs.sources src }))
  | RuleKind.zoneTarget _ => Except.error zoneTxNotPermanentMsg
  | RuleKind.zoneExistence => Except.error zoneTxNotPermanentMsg
  | RuleKind.forwardPort po pr tp ta =>
    liftRt s (modifyZone s.runtime t.zone (fun zs => { zs with forwardPorts := addIfAbsent zs.forwardPorts (po, pr, tp, ta) }))

/-- `set_disabled_immediate` of every transaction class: remove the
primitive from the runtime layer; fatal for the two permanent-only kinds. -/
def setDisabledImmediate (canon : String → String) (t : Tx) (s : FirewallState) :
    Except String FirewallState :=
  match t.kind with
  | RuleKind.icmpBlock b =>
    liftRt s (modifyZone s.runtime t.zone (fun zs => { zs with icmpBlocks := removeAll zs.icmpBlocks b }))
  | RuleKind.icmpBlockInversion =>
    liftRt s (modifyZone s.runtime t.zone (fun zs => { zs with icmpBlockInversion := false }))
  | RuleKind.service sv =>
    liftRt s (modifyZone s.runtime t.zone (fun zs => { zs with services := removeAll zs.services sv }))
  | RuleKind.protocol pr =>
    liftRt s (modifyZone s.runtime t.zone (fun zs => { zs with protocols := removeAll zs.protocols pr }))
  | RuleKind.forward =>
    liftRt s (modifyZone s.runtime t.zone (fun zs => { zs with forward := false }))
  | RuleKind.masquerade =>
    liftRt s (modifyZone s.runtime t.zone (fun zs => { zs with masquerade := false }))
  | RuleKind.port po pr =>
    liftRt s (modifyZone s.runtime t.zone (fun zs => { zs with ports := removeAll zs.ports (po, pr) }))
  | RuleKind.sourcePort po pr =>
    liftRt s (modifyZone s.runtime t.zone (fun zs => { zs with sourcePorts := removeAll zs.sourcePorts (po, pr) }))
  | RuleKind.interface i =>
    liftRt s (modifyZone s.runtime t.zone (fun zs => { zs with interfaces := removeAll zs.interfaces i }))
  | RuleKind.richRule r =>
    liftRt s (modifyZone s.runtime t.zone (fun zs => { zs with richRules := removeAll zs.richRules (canon r) }))
  | RuleKind.source src =>
    liftRt s (modifyZone s.runtime t.zone (fun zs => { zs with sources := removeAll zs.sources src }))
  | RuleKind.zoneTarget _ => Except.error zoneTxNotPermanentMsg
  | RuleKind.zoneExistence => Except.error zoneTxNotPermanentMsg
  | RuleKind.forwardPort po pr tp ta =>
    liftRt s (modifyZone s.runtime t.zone (fun zs => { zs with forwardPorts := removeAll zs.forwardPorts (po, pr, tp, ta) }))

/-- The permanent zones currently listing the interface (the offline scan
over `fw.config.get_zones()` in `InterfaceTransaction.set_enabled_permanent`). -/
def ifaceOwners (perm : List (String × ZoneSettings)) (iface : String) :
    List (String × ZoneSettings) :=
  perm.filter (fun p => iface ∈ p.2.interfaces)

/-- The fatal message when the interface appears in several permanent zone
definitions. -/
def multiZoneErrMsg (iface : String) (n : Nat) : String :=
  "ERROR: interface " ++ iface ++ " is in " ++ toString n ++ " zone XML file, can only be in one"

/-- Replace the permanent layer of a state. -/
def withPerm (s : FirewallState) (l : List (String × ZoneSettings)) : FirewallState :=
  { s with permanent := l }

/-- The settings with the interface added (`settings.addInterface`). -/
def addIface (zs : ZoneSettings) (iface : String) : ZoneSettings :=
  { zs with interfaces := addIfAbsent zs.interfaces iface }

/-- The settings with the interface removed (`settings.removeInterface`). -/
def delIface (zs : ZoneSettings) (iface : String) : ZoneSettings :=
  { zs with interfaces := removeAll zs.interfaces iface }

/-- The offline removal half of the interface re-assignment: when exactly
one permanent zone different from the target owns the interface, commit that
zone's settings with the interface removed; otherwise leave the layer
unchanged. -/
def ifaceRemoveOld (perm : List (String × ZoneSettings)) (iface zone : String) :
    List (String × ZoneSettings) :=
  match ifaceOwners perm iface with
  | [(oname, ozs)] =>
    if oname = zone then perm
    else zupdate perm oname (delIface ozs iface)
  | _ => perm

/-- `InterfaceTransaction.set_enabled_permanent`: fetch the target zone's
settings first; in offline mode scan every permanent zone for the interface,
fail fatally when it is owned by more than one, move it out of a single
different owner; in online mode look the owner up by name, move the
interface out of it when it differs from the target zone, and do nothing at
all when the owner already is the target zone.  Finally commit the fetched
settings with the interface added. -/
def ifaceEnablePermanent (zone iface : String) (fwo : Bool) (s : FirewallState) :
    Except String FirewallState :=
  match zlookup s.permanent zone with
  | none => Except.error "INVALID_ZONE"
  | some fwSettings =>
    if fwo then
      if 1 < (ifaceOwners s.permanent iface).length then
        Except.error (multiZoneErrMsg iface (ifaceOwners s.permanent iface).length)
      else
        Except.ok (withPerm s (zupdate (ifaceRemoveOld s.permanent iface zone) zone (addIface fwSettings iface)))
    else
      match zGetZoneOfInterface s.permanent iface with
      | some oldName =>
        if oldName = zone then Except.ok s
        else
          match zlookup s.permanent oldName with
          | none => Except.error "INVALID_ZONE"
          | some ozs =>
            Except.ok (withPerm s (zupdate (zupdate s.permanent oldName (delIface ozs iface)) zone (addIface fwSettings iface)))
      | none =>
        Except.ok (withPerm s (zupdate s.permanent zone (addIface fwSettings iface)))

/-- `set_enabled_permanent` of every transaction class: add the primitive to
the fetched settings snapshot and commit; set the target for the zone-target
kind; create the zone (fresh default settings) for the zone-existence kind;
the interface kind performs the single-ownership re-assignment. -/
def setEnabledPermanent (canon : String → String) (t : Tx) (s : FirewallState) :
    Except String FirewallState :=
  match t.kind with
  | RuleKind.icmpBlock b =>
    liftPerm s (modifyZone s.permanent t.zone (fun zs => { zs with icmpBlocks := addIfAbsent zs.icmpBlocks b }))
  | RuleKind.icmpBlockInversion =>
    liftPerm s (modifyZone s.permanent t.zone (fun zs => { zs with icmpBlockInversion := true }))
  | RuleKind.service sv =>
    liftPerm s (modifyZone s.permanent t.zone (fun zs => { zs with services := addIfAbsent zs.services sv }))
  | RuleKind.protocol pr =>
    liftPerm s (modifyZone s.permanent t.zone (fun zs => { zs with protocols := addIfAbsent zs.protocols pr }))
  | RuleKind.forward =>
    liftPerm s (modifyZone s.permanent t.zone (fun zs => { zs with forward := true }))
  | RuleKind.masquerade =>
    liftPerm s (modifyZone s.permanent t.zone (fun zs => { zs with masquerade := true }))
  | RuleKind.port po pr =>
    liftPerm s (modifyZone s.permanent t.zone (fun zs => { zs with ports := addIfAbsent zs.ports (po, pr) }))
  | RuleKind.sourcePort po pr =>
    liftPerm s (modifyZone s.permanent t.zone (fun zs => { zs with sourcePorts := addIfAbsent zs.sourcePorts (po, pr) }))
  | RuleKind.interface i => ifaceEnablePermanent t.zone i t.fwOffline s
  | RuleKind.richRule r =>
    liftPerm s (modifyZone s.permanent t.zone (fun zs => { zs with richRules := addIfAbsent zs.richRules (canon r) }))
  | RuleKind.source src =>
    liftPerm s (modifyZone s.permanent t.zone (fun zs => { zs with sources := addIfAbsent zs.sources src }))
  | RuleKind.zoneTarget tgt =>
    liftPerm s (modifyZone s.permanent t.zone (fun zs => { zs with target := tgt }))
  | RuleKind.zoneExistence =>
    if (zlookup s.permanent t.zone).isSome then Except.error "NAME_CONFLICT"
    else Except.ok { s with permanent := s.permanent ++ [(t.zone, defaultZoneSettings)] }
  | RuleKind.forwardPort po pr tp ta =>
    liftPerm s (modifyZone s.permanent t.zone (fun zs => { zs with forwardPorts := addIfAbsent zs.forwardPorts (po, pr, tp, ta) }))

/-- `set_disabled_permanent` of every transaction class: remove the
primitive from the fetched settings snapshot and commit; reset the target to
`default` for the zone-target kind; delete the zone for the zone-existence
kind. -/
def setDisabledPermanent (canon : String → String) (t : Tx) (s : FirewallState) :
    Except String FirewallState :=
  match t.kind with
  | RuleKind.icmpBlock b =>
    liftPerm s (modifyZone s.permanent t.zone (fun zs => { zs with icmpBlocks := removeAll zs.icmpBlocks b }))
  | RuleKind.icmpBlockInversion =>
    liftPerm s (modifyZone s.permanent t.zone (fun zs => { zs with icmpBlockInversion := false }))
  | RuleKind.service sv =>
    liftPerm s (modifyZone s.permanent t.zone (fun zs => { zs with services := removeAll zs.services sv }))
  | RuleKind.protocol pr =>
    liftPerm s (modifyZone s.permanent t.zone (fun zs => { zs with protocols := removeAll zs.protocols pr }))
  | RuleKind.forward =>
    liftPerm s (modifyZone s.permanent t.zone (fun zs => { zs with forward := false }))
  | RuleKind.masquerade =>
    liftPerm s (modifyZone s.permanent t.zone (fun zs => { zs with masquerade := false }))
  | RuleKind.port po pr =>
    liftPerm s (modifyZone s.permanent t.zone (fun zs => { zs with ports := removeAll zs.ports (po, pr) }))
  | RuleKind.sourcePort po pr =>
    liftPerm s (modifyZone s.permanent t.zone (fun zs => { zs with sourcePorts := removeAll zs.sourcePorts (po, pr) }))
  | RuleKind.interface i =>
    liftPerm s (modifyZone s.permanent t.zone (fun zs => { zs with interfaces := removeAll zs.interfaces i }))
  | RuleKind.richRule r =>
    liftPerm s (modifyZone s.permanent t.zone (fun zs => { zs with richRules := removeAll zs.richRules (canon r) }))
  | RuleKind.source src =>
    liftPerm s (modifyZone s.permanent t.zone (fun zs => { zs with sources := removeAll zs.sources src }))
  | RuleKind.zoneTarget _ =>
    liftPerm s (modifyZone s.permanent t.zone (fun zs => { zs with target := "default" }))
  | RuleKind.zoneExistence =>
    match zlookup s.permanent t.zone with
    | none => Except.error "INVALID_ZONE"
    | some _ => Except.ok { s with permanent := s.permanent.filter (fun p => p.1 ≠ t.zone) }
  | RuleKind.forwardPort po pr tp ta =>
    liftPerm s (modifyZone s.permanent t.zone (fun zs => { zs with forwardPorts := removeAll zs.forwardPorts (po, pr, tp, ta) }))

/-- Modelled from the spec: the fatal message of the engine when an
immediate-layer operation is requested while the daemon is offline (the
`FirewallTransaction.run` driver of the collection's `module_utils` is not
among the given sources). -/
def offlineImmediateMsg : String :=
  "immediate operations are impossible while the firewall daemon is offline"

/-- Reconcile one layer: probe with `get`, compare to the desired boolean,
and if they differ apply the matching mutation and report a change together
with the layer message. -/
def layerRun (get : FirewallState → Except String Bool)
    (setT setF : FirewallState → Except String FirewallState)
    (want : Bool) (mT mF : String) (s : FirewallState) :
    Except String (FirewallState × Bool × List String) :=
  match get s with
  | Except.error e => Except.error e
  | Except.ok cur =>
    if cur = want then Except.ok (s, false, [])
    else
      match (if want then setT s else setF s) with
      | Except.error e => Except.error e
      | Except.ok s' => Except.ok (s', true, [if want then mT else mF])

/-- Modelled from the spec: `FirewallTransaction.run`, the generic
check-then-mutate reconciliation driver of the missing `module_utils` base
class (spec section 4.2).  The desired state is mapped to a boolean through
the transaction's enabled/disabled vocabularies (defaults: enabled/present
versus disabled/absent); the permanent layer is processed first, then the
immediate layer, which fails fatally when the daemon is offline; the change
flags are OR-ed and the per-layer messages concatenated. -/
def runTransaction (canon : String → String) (t : Tx) (s : FirewallState) :
    Except String (FirewallState × Bool × List String) :=
  match (if t.desiredState ∈ t.enabledValues then Except.ok true
         else if t.desiredState ∈ t.disabledValues then Except.ok false
         else (Except.error "invalid desired state" : Except String Bool)) with
  | Except.error e => Except.error e
  | Except.ok want =>
    match (if t.permanent then
             layerRun (getEnabledPermanent canon t) (setEnabledPermanent canon t)
               (setDisabledPermanent canon t) want t.enabledMsg t.disabledMsg s
           else Except.ok (s, false, [])) with
    | Except.error e => Except.error e
    | Except.ok (s1, c1, m1) =>
      match (if t.immediate then
               if t.fwOffline then Except.error offlineImmediateMsg
               else layerRun (getEnabledImmediate canon t) (setEnabledImmediate canon t)
                 (setDisabledImmediate canon t) want t.enabledMsg t.disabledMsg s1
             else Except.ok (s1, false, [])) with
      | Except.error e => Except.error e
      | Except.ok (s2, c2, m2) => Except.ok (s2, c1 || c2, m1 ++ m2)

/-- Per-kind layer messages that the transaction subclass constructors set
(`enabled_msg`, `disabled_msg`); kinds whose constructor does not set them
keep the base default, modelled as the empty string. -/
def defaultMsgs (k : RuleKind) (zone : String) : String × String :=
  match k with
  | RuleKind.forward => ("Added forward to zone " ++ zone, "Removed forward from zone " ++ zone)
  | RuleKind.masquerade => ("Added masquerade to zone " ++ zone, "Removed masquerade from zone " ++ zone)
  | RuleKind.interface i => ("Changed " ++ i ++ " to zone " ++ zone, "Removed " ++ i ++ " from zone " ++ zone)
  | RuleKind.source src => ("Added " ++ src ++ " to zone " ++ zone, "Removed " ++ src ++ " from zone " ++ zone)
  | RuleKind.zoneTarget tgt => ("Set zone " ++ zone ++ " target to " ++ tgt, "Reset zone " ++ zone ++ " target to default")
  | RuleKind.zoneExistence => ("Added zone " ++ zone, "Removed zone " ++ zone)
  | _ => ("", "")

/-- Build the transaction `main` constructs for an ordinary rule kind
(default enabled/disabled vocabularies, spec section 4.2). -/
def mkTx (k : RuleKind) (zone desired : String) (perm imm fwo : Bool) (timeout : Nat) : Tx :=
  { kind := k, zone := zone, desiredState := desired, permanent := perm, immediate := imm,
    fwOffline := fwo, enabledValues := ["enabled", "present"],
    disabledValues := ["disabled", "absent"],
    enabledMsg := (defaultMsgs k zone).1, disabledMsg := (defaultMsgs k zone).2,
    timeout := timeout }

/-- Build the transaction `main` constructs for the zone-target kind, whose
constructor passes explicit enabled/disabled vocabularies treating
present/absent as aliases of enabled/disabled. -/
def mkZoneTargetTx (tgt zone desired : String) (perm imm fwo : Bool) (timeout : Nat) : Tx :=
  { kind := RuleKind.zoneTarget tgt, zone := zone, desiredState := desired, permanent := perm,
    immediate := imm, fwOffline := fwo, enabledValues := ["present", "enabled"],
    disabledValues := ["absent", "disabled"],
    enabledMsg := (defaultMsgs (RuleKind.zoneTarget tgt) zone).1,
    disabledMsg := (defaultMsgs (RuleKind.zoneTarget tgt) zone).2,
    timeout := timeout }

/-- Build the transaction `main` constructs for the zone-existence kind,
whose constructor passes the vocabularies present / absent only. -/
def mkZoneTx (zone desired : String) (perm imm fwo : Bool) (timeout : Nat) : Tx :=
  { kind := RuleKind.zoneExistence, zone := zone, desiredState := desired, permanent := perm,
    immediate := imm, fwOffline := fwo, enabledValues := ["present"],
    disabledValues := ["absent"],
    enabledMsg := (defaultMsgs RuleKind.zoneExistence zone).1,
    disabledMsg := (defaultMsgs RuleKind.zoneExistence zone).2,
    timeout := timeout }

/-- The boolean-flag normalization of `main` for forward, masquerade and
icmp-block-inversion: `expected_state = enabled if (desired_state ==
enabled) == flag else disabled`. -/
def normalizeFlagState (desiredState : String) (flag : Bool) : String :=
  if (desiredState == "enabled") == flag then "enabled" else "disabled"

/-- The layer-flag resolution of `main`: offline without permanent is a
fatal configuration error; offline with an unreachable daemon forces
immediate off; immediate defaults to on when permanent is off; requesting
the immediate layer while the daemon is not running is fatal.  Returns the
resolved (permanent, immediate) pair. -/
def resolveLayers (offline permanent immediate fwOffline : Bool) :
    Except String (Bool × Bool) :=
  if offline ∧ ¬permanent then
    Except.error "offline cannot be enabled unless permanent changes are allowed"
  else
    let imm1 := if offline ∧ fwOffline then false else immediate
    let imm2 := if ¬permanent ∧ ¬imm1 then true else imm1
    if imm2 ∧ fwOffline then
      Except.error "firewall is not currently running, unable to perform immediate actions without a running firewall daemon"
    else Except.ok (permanent, imm2)

/-- Python `str.strip()`: drop leading and trailing whitespace. -/
def pystrip (l : List Char) : List Char :=
  ((l.dropWhile Char.isWhitespace).reverse.dropWhile Char.isWhitespace).reverse

/-- Python `str.split(sep)` for a one-character separator: the list of
chunks between occurrences of the separator (an empty input yields one empty
chunk, like Python). -/
def pysplit (c : Char) : List Char → List (List Char)
  | [] => [[]]
  | x :: xs =>
    let r := pysplit c xs
    if x = c then [] :: r else (x :: r.headD []) :: r.tail

/-- The outcome of the port-parameter handling in `main`: a clean
`(port, protocol)` pair, a clean `fail_json` call, or an unhandled Python
exception escaping from the two-variable unpacking of `split`. -/
inductive PortParse where
  | ok (port protocol : String)
  | fail (msg : String)
  | exc (msg : String)
deriving DecidableEq

/-- The message of the `ValueError` raised by `a, b = l` when `l` does not
have exactly two elements. -/
def unpackErrMsg : String := "ValueError: not exactly two values to unpack"

/-- The port / source_port handling of `main`: when the value contains a
slash, strip it and unpack `split` into the port and the protocol (an
unhandled `ValueError` unless the split has exactly two parts); fail with
the given message when there is no slash or the protocol part is empty. -/
def parsePortParam (failMsg : String) (v : String) : PortParse :=
  if '/' ∈ v.data then
    match pysplit '/' (pystrip v.data) with
    | [a, b] => if b.isEmpty then PortParse.fail failMsg else PortParse.ok ⟨a⟩ ⟨b⟩
    | _ => PortParse.exc unpackErrMsg
  else PortParse.fail failMsg

/-- The `improper port format` message of `main`. -/
def portFmtMsg : String := "improper port format (missing protocol?)"

/-- The `improper source_port format` message of `main`. -/
def sourcePortFmtMsg : String := "improper source_port format (missing protocol?)"

/-- One element of the `port_forward` list parameter; the optional fields
model key presence in the Python dict. -/
structure PortForwardParam where
  port : Option String
  proto : Option String
  toport : Option String
  toaddr : Option String
deriving DecidableEq

/-- The module parameters `main` reads (the declarative `argument_spec`
scaffolding of `AnsibleModule` is an external collaborator and not part of
the core). -/
structure Params where
  icmp_block : Option String
  icmp_block_inversion : Option Bool
  service : Option String
  protocol : Option String
  port : Option String
  source_port : Option String
  port_forward : Option (List PortForwardParam)
  rich_rule : Option String
  zone : String
  immediate : Bool
  source : Option String
  permanent : Bool
  state : String
  timeout : Nat
  interface : Option String
  forward : Option Bool
  masquerade : Option Bool
  offline : Bool
  target : Option String
deriving DecidableEq

/-- How a module invocation ends abnormally: a clean `fail_json` call, or an
unhandled Python exception. -/
inductive ModuleError where
  | failJson (msg : String)
  | pythonException (msg : String)
deriving DecidableEq

/-- Python truthiness of an optional string parameter (None and the empty
string are falsy). -/
def truthyStr (o : Option String) : Bool :=
  match o with
  | none => false
  | some s => !s.isEmpty

/-- Python truthiness of an optional boolean parameter (None and False are
falsy). -/
def truthyBool (o : Option Bool) : Bool :=
  match o with
  | none => false
  | some b => b

/-- Python representation of a boolean, as interpolated into messages. -/
def pyBoolStr (b : Bool) : String := if b then "True" else "False"

/-- The port / source_port parameter handling of `main` lifted to the
optional parameter, classifying the outcome as a module error. -/
def parsePortOpt (msg : String) (o : Option String) :
    Except ModuleError (Option (String × String)) :=
  match o with
  | none => Except.ok none
  | some v =>
    match parsePortParam msg v with
    | PortParse.ok a b => Except.ok (some (a, b))
    | PortParse.fail m => Except.error (ModuleError.failJson m)
    | PortParse.exc m => Except.error (ModuleError.pythonException m)

/-- The `port_forward` validation of `main`: at most one entry, the `port`,
`proto` and `toport` keys mandatory, `toaddr` defaulting to the empty
string; indexing an empty list is an unhandled Python exception. -/
def parsePortForwardOpt (o : Option (List PortForwardParam)) :
    Except ModuleError (Option (PortForwardParam × String)) :=
  match o with
  | none => Except.ok none
  | some l =>
    if 1 < l.length then Except.error (ModuleError.failJson "Only one port forward supported at a time")
    else
      match l with
      | [] => Except.error (ModuleError.pythonException "IndexError: list index out of range")
      | d :: _ =>
        match d.port with
        | none => Except.error (ModuleError.failJson "port must be specified for port forward")
        | some _ =>
          match d.proto with
          | none => Except.error (ModuleError.failJson "proto udp/tcp must be specified for port forward")
          | some _ =>
            match d.toport with
            | none => Except.error (ModuleError.failJson "toport must be specified for port forward")
            | some _ => Except.ok (some (d, d.toaddr.getD ""))

/-- The `modification` flag of `main`: the `any([...])` over the thirteen
primitive parameters, using Python truthiness of each value (the parsed
`port` / `source_port` strings and the validated `port_forward` entry stand
in for their raw parameters, as in the source). -/
def modificationFlag (p : Params) (portPair sportPair : Option (String × String))
    (pf : Option (PortForwardParam × String)) : Bool :=
  truthyStr p.icmp_block || truthyBool p.icmp_block_inversion || truthyStr p.service ||
  truthyStr p.protocol || truthyStr (portPair.map (fun q => q.1)) ||
  truthyStr (sportPair.map (fun q => q.1)) || pf.isSome || truthyStr p.rich_rule ||
  truthyStr p.interface || truthyBool p.forward || truthyBool p.masquerade ||
  truthyStr p.source || truthyStr p.target

/-- The `absent and present` gate message of `main`. -/
def absentPresentMsg : String :=
  "absent and present state can only be used in zone level operations"

/-- One dispatch step of `main`: run the transaction on the accumulated
state, replace (not OR) the `changed` flag with this transaction's flag,
extend the message list, and append the per-kind summary message when the
transaction reported a change. -/
def runStep (canon : String → String) (t : Tx) (summary : Option String)
    (acc : FirewallState × Bool × List String) :
    Except ModuleError (FirewallState × Bool × List String) :=
  match runTransaction canon t acc.1 with
  | Except.error e => Except.error (ModuleError.failJson e)
  | Except.ok (s', c, m) =>
    Except.ok (s', c, acc.2.2 ++ m ++ (if c then (match summary with
      | some x => [x]
      | none => ([] : List String)) else []))

/-- Run a dispatch step only when the optional parameter is set (the
`if X is not None` guards of `main`). -/
def maybeStep {α : Type} (o : Option α)
    (f : α → (FirewallState × Bool × List String) → Except ModuleError (FirewallState × Bool × List String))
    (acc : FirewallState × Bool × List String) :
    Except ModuleError (FirewallState × Bool × List String) :=
  match o with
  | none => Except.ok acc
  | some x => f x acc

/-- Sequence two dispatch steps: a failed step aborts the invocation. -/
def andThen (r : Except ModuleError (FirewallState × Bool × List String))
    (f : (FirewallState × Bool × List String) → Except ModuleError (FirewallState × Bool × List String)) :
    Except ModuleError (FirewallState × Bool × List String) :=
  match r with
  | Except.error e => Except.error e
  | Except.ok a => f a

/-- The transaction dispatch sequence of `main`, in source order, threading
the firewall state and the (reassigned) `changed` flag, ending with the
zone-existence transaction when no primitive modification was requested and
the state is absent/present, and the offline note. -/
def mainDispatch (canon : String → String) (fwo : Bool) (p : Params)
    (perm imm : Bool) (portPair sportPair : Option (String × String))
    (pf : Option (PortForwardParam × String)) (modification : Bool) (s : FirewallState) :
    Except ModuleError (FirewallState × Bool × List String) :=
  match
    andThen (andThen (andThen (andThen (andThen (andThen (andThen (andThen (andThen (andThen
      (andThen (andThen (andThen
        (maybeStep p.icmp_block (fun b acc =>
          runStep canon (mkTx (RuleKind.icmpBlock b) p.zone p.state perm imm fwo p.timeout)
            (some ("Changed icmp-block " ++ b ++ " to " ++ p.state)) acc) (s, false, []))
        (maybeStep p.icmp_block_inversion (fun fl acc =>
          runStep canon (mkTx RuleKind.icmpBlockInversion p.zone (normalizeFlagState p.state fl) perm imm fwo p.timeout)
            (some ("Changed icmp-block-inversion " ++ pyBoolStr fl ++ " to " ++ p.state)) acc)))
      (maybeStep p.service (fun sv acc =>
        runStep canon (mkTx (RuleKind.service sv) p.zone p.state perm imm fwo p.timeout)
          (some ("Changed service " ++ sv ++ " to " ++ p.state)) acc)))
      (maybeStep p.protocol (fun pr acc =>
        runStep canon (mkTx (RuleKind.protocol pr) p.zone p.state perm imm fwo p.timeout)
          (some ("Changed protocol " ++ pr ++ " to " ++ p.state)) acc)))
      (maybeStep p.source (fun src acc =>
        runStep canon (mkTx (RuleKind.source src) p.zone p.state perm imm fwo p.timeout) none acc)))
      (maybeStep portPair (fun q acc =>
        runStep canon (mkTx (RuleKind.port q.1 q.2) p.zone p.state perm imm fwo p.timeout)
          (some ("Changed port " ++ q.1 ++ "/" ++ q.2 ++ " to " ++ p.state)) acc)))
      (maybeStep sportPair (fun q acc =>
        runStep canon (mkTx (RuleKind.sourcePort q.1 q.2) p.zone p.state perm imm fwo p.timeout)
          (some ("Changed source_port " ++ q.1 ++ "/" ++ q.2 ++ " to " ++ p.state)) acc)))
      (maybeStep pf (fun q acc =>
        runStep canon (mkTx (RuleKind.forwardPort (q.1.port.getD "") (q.1.proto.getD "") (q.1.toport.getD "") q.2) p.zone p.state perm imm fwo p.timeout)
          (some ("Changed port_forward port=" ++ q.1.port.getD "" ++ ":proto=" ++ q.1.proto.getD "" ++ ":toport=" ++ q.1.toport.getD "" ++ ":toaddr=" ++ q.2 ++ " to " ++ p.state)) acc)))
      (maybeStep p.rich_rule (fun r acc =>
        runStep canon (mkTx (RuleKind.richRule r) p.zone p.state perm imm fwo p.timeout)
          (some ("Changed rich_rule " ++ r ++ " to " ++ p.state)) acc)))
      (maybeStep p.interface (fun i acc =>
        runStep canon (mkTx (RuleKind.interface i) p.zone p.state perm imm fwo p.timeout) none acc)))
      (maybeStep p.forward (fun fl acc =>
        runStep canon (mkTx RuleKind.forward p.zone (normalizeFlagState p.state fl) perm imm fwo p.timeout) none acc)))
      (maybeStep p.masquerade (fun fl acc =>
        runStep canon (mkTx RuleKind.masquerade p.zone (normalizeFlagState p.state fl) perm imm fwo p.timeout) none acc)))
      (maybeStep p.target (fun tgt acc =>
        runStep canon (mkZoneTargetTx tgt p.zone p.state perm imm fwo p.timeout) none acc)))
      (fun acc =>
        if modification = false ∧ (p.state = "absent" ∨ p.state = "present") then
          runStep canon (mkZoneTx p.zone p.state perm imm fwo p.timeout)
            (some ("Changed zone " ++ p.zone ++ " to " ++ p.state)) acc
        else Except.ok acc)
  with
  | Except.error e => Except.error e
  | Except.ok acc =>
    Except.ok (acc.1, acc.2.1,
      if fwo then acc.2.2 ++ ["(offline operation: only on-disk configs were altered)"] else acc.2.2)

/-- The body of `main`: resolve the layer flags, parse the port-shaped
parameters, validate `port_forward`, apply the truthiness-based
absent/present gate, and run the dispatch sequence. -/
def mainRun (canon : String → String) (fwo : Bool) (p : Params) (s : FirewallState) :
    Except ModuleError (FirewallState × Bool × List String) :=
  match resolveLayers p.offline p.permanent p.immediate fwo with
  | Except.error e => Except.error (ModuleError.failJson e)
  | Except.ok (perm, imm) =>
    match parsePortOpt portFmtMsg p.port with
    | Except.error e => Except.error e
    | Except.ok portPair =>
      match parsePortOpt sourcePortFmtMsg p.source_port with
      | Except.error e => Except.error e
      | Except.ok sportPair =>
        match parsePortForwardOpt p.port_forward with
        | Except.error e => Except.error e
        | Except.ok pf =>
          let modification := modificationFlag p portPair sportPair pf
          if modification = true ∧ (p.state = "absent" ∨ p.state = "present") ∧ p.target = none then
            Except.error (ModuleError.failJson absentPresentMsg)
          else
            mainDispatch canon fwo p perm imm portPair sportPair pf modification s

/-! ### Concrete instances used by witnesses and counterexamples -/

/-- The transaction `main` constructs for `target=default, state=absent` on
zone `public`, permanent layer only. -/
def zoneTargetDefaultTx : Tx := mkZoneTargetTx "default" "public" "absent" true false false 0

/-- A firewall state whose permanent `public` zone has the default target. -/
def publicDefaultState : FirewallState :=
  { runtime := [("public", defaultZoneSettings)], permanent := [("public", defaultZoneSettings)] }

/-- The `https`-service transaction used as the idempotence witness. -/
def httpsTx : Tx := mkTx (RuleKind.service "https") "public" "enabled" true false false 0

/-- The permanent `public` settings after the witness run added `https`. -/
def httpsSettings : ZoneSettings := { defaultZoneSettings with services := ["https"] }

/-- The state after the first witness run. -/
def httpsState1 : FirewallState :=
  { runtime := [("public", defaultZoneSettings)], permanent := [("public", httpsSettings)] }

/-- A zone owning the interface `eth2`. -/
def ifaceZoneA : ZoneSettings := { defaultZoneSettings with interfaces := ["eth2"] }

/-- A permanent layer where exactly zone `A` owns `eth2` and zone `B` exists. -/
def ifaceDemoState : FirewallState :=
  { runtime := [], permanent := [("A", ifaceZoneA), ("B", defaultZoneSettings)] }

/-- A permanent layer where two zones own `eth2`. -/
def ifaceDemoState2 : FirewallState :=
  { runtime := [], permanent := [("A", ifaceZoneA), ("B", defaultZoneSettings), ("C", ifaceZoneA)] }

/-- The module parameters of the C3 scenario: `icmp_block_inversion=true`,
`state=disabled`, permanent layer. -/
def c3Params : Params :=
  { icmp_block := none, icmp_block_inversion := some true, service := none, protocol := none,
    port := none, source_port := none, port_forward := none, rich_rule := none, zone := "public",
    immediate := false, source := none, permanent := true, state := "disabled", timeout := 0,
    interface := none, forward := none, masquerade := none, offline := false, target := none }

/-- A `public` zone with the icmp-block-inversion flag set. -/
def inversionOnSettings : ZoneSettings := { defaultZoneSettings with icmpBlockInversion := true }

/-- A state whose permanent `public` zone has the inversion flag set. -/
def inversionOnState : FirewallState :=
  { runtime := [("public", defaultZoneSettings)], permanent := [("public", inversionOnSettings)] }

/-- The module parameters of the C7 scenario: `port=8081`, `state=enabled`,
permanent layer. -/
def c7Params : Params :=
  { icmp_block := none, icmp_block_inversion := none, service := none, protocol := none,
    port := some "8081", source_port := none, port_forward := none, rich_rule := none,
    zone := "public", immediate := false, source := none, permanent := true, state := "enabled",
    timeout := 0, interface := none, forward := none, masquerade := none, offline := false,
    target := none }

/-- The module parameters of the C10 scenario: `port=80/tcp/x`. -/
def c10Params : Params := { c7Params with port := some "80/tcp/x" }

/-- The C4 counterexample parameters: `forward=false` (an explicitly falsy
primitive) together with `state=present`, permanent layer. -/
def c4Params : Params := { c7Params with port := none, forward := some false, state := "present" }

/-- The `public` zone with forwarding enabled. -/
def forwardOnSettings : ZoneSettings := { defaultZoneSettings with forward := true }

/-- The state after the C4 counterexample run: forwarding was mutated. -/
def forwardOnState : FirewallState :=
  { runtime := [("public", defaultZoneSettings)], permanent := [("public", forwardOnSettings)] }

/-- The C4 witness parameters: a truthy `service` with `state=present`. -/
def c4WitnessParams : Params :=
  { c7Params with port := none, service := some "https", state := "present" }

/-- Parameters with `masquerade` explicitly false and `state=present`. -/
def c9MasqParams : Params :=
  { c7Params with port := none, masquerade := some false, state := "present" }

/-- Parameters with `icmp_block_inversion` explicitly false and
`state=present`. -/
def c9InvParams : Params :=
  { c7Params with port := none, icmp_block_inversion := some false, state := "present" }

/-- The `public` zone with masquerading enabled. -/
def masqueradeOnSettings : ZoneSettings := { defaultZoneSettings with masquerade := true }

/-- The state after the masquerade flag transaction mutated the zone. -/
def masqueradeOnState : FirewallState :=
  { runtime := [("public", defaultZoneSettings)], permanent := [("public", masqueradeOnSettings)] }

/-! ### Basic lemmas about the layer primitives -/

theorem mem_addIfAbsent_self {α : Type} [DecidableEq α] (l : List α) (x : α) :
    x ∈ addIfAbsent l x := by
  unfold addIfAbsent
  split
  · assumption
  · simp

theorem not_mem_removeAll {α : Type} [DecidableEq α] (l : List α) (x : α) :
    x ∉ removeAll l x := by
  intro h
  simp [removeAll, List.mem_filter] at h

theorem zlookup_zupdate_self (l : List (String × ZoneSettings)) (k : String) (v : ZoneSettings) :
    zlookup (zupdate l k v) k = (zlookup l k).map (fun _ => v) := by
  induction l with
  | nil => rfl
  | cons hd tl ih =>
    obtain ⟨n, zs⟩ := hd
    by_cases h : n = k
    · subst h
      simp [zupdate, zlookup]
    · simp [zupdate, zlookup, h, ih]

theorem zlookup_zupdate_ne (l : List (String × ZoneSettings)) (k k' : String) (v : ZoneSettings)
    (h : k' ≠ k) : zlookup (zupdate l k v) k' = zlookup l k' := by
  induction l with
  | nil => rfl
  | cons hd tl ih =>
    obtain ⟨n, zs⟩ := hd
    by_cases hn : n = k
    · subst hn
      simp [zupdate, zlookup, Ne.symm h, ih]
    · by_cases hn' : n = k'
      · subst hn'
        simp [zupdate, zlookup, hn]
      · simp [zupdate, zlookup, hn, hn', ih]

theorem zlookup_map (f : ZoneSettings → ZoneSettings) (l : List (String × ZoneSettings)) (k : String) :
    zlookup (l.map (fun p => (p.1, f p.2))) k = (zlookup l k).map f := by
  induction l with
  | nil => rfl
  | cons hd tl ih =>
    obtain ⟨n, zs⟩ := hd
    by_cases h : n = k
    · subst h
      simp [zlookup]
    · simp [zlookup, h, ih]

theorem zlookup_append_of_none (l m : List (String × ZoneSettings)) (k : String)
    (h : zlookup l k = none) : zlookup (l ++ m) k = zlookup m k := by
  induction l with
  | nil => rfl
  | cons hd tl ih =>
    obtain ⟨n, zs⟩ := hd
    by_cases hn : n = k
    · simp [zlookup, hn] at h
    · simp [zlookup, hn] at h ⊢
      exact ih h

theorem zlookup_filter_eq_none (l : List (String × ZoneSettings)) (k : String)
    (q : String × ZoneSettings → Bool) (hq : ∀ x, x.1 = k → q x = false) :
    zlookup (l.filter q) k = none := by
  induction l with
  | nil => rfl
  | cons hd tl ih =>
    obtain ⟨n, zs⟩ := hd
    by_cases hn : n = k
    · subst hn
      simpa [List.filter, hq (n, zs) rfl] using ih
    · cases hqv : q (n, zs) with
      | false => simpa [List.filter, hqv] using ih
      | true => simpa [List.filter, hqv, zlookup, hn] using ih

theorem readZone_of_lookup (l : List (String × ZoneSettings)) (z : String) (zs : ZoneSettings)
    (f : ZoneSettings → Bool) (h : zlookup l z = some zs) :
    readZone l z f = Except.ok (f zs) := by
  simp [readZone, h]

theorem modifyZone_ok (l l' : List (String × ZoneSettings)) (z : String)
    (f : ZoneSettings → ZoneSettings) (h : modifyZone l z f = Except.ok l') :
    ∃ zs, zlookup l z = some zs ∧ l' = zupdate l z (f zs) := by
  unfold modifyZone at h
  cases hz : zlookup l z with
  | none => simp [hz] at h
  | some zs =>
    simp [hz] at h
    exact ⟨zs, rfl, h.symm⟩

theorem modifyZone_read (l l' : List (String × ZoneSettings)) (z : String)
    (f : ZoneSettings → ZoneSettings) (g : ZoneSettings → Bool) (b : Bool)
    (h : modifyZone l z f = Except.ok l') (hb : ∀ zs, g (f zs) = b) :
    readZone l' z g = Except.ok b := by
  obtain ⟨zs, hz, hl⟩ := modifyZone_ok l l' z f h
  subst hl
  have : zlookup (zupdate l z (f zs)) z = some (f zs) := by
    rw [zlookup_zupdate_self, hz]
    rfl
  simp [readZone, this, hb]

theorem liftPerm_ok (s s' : FirewallState) (r : Except String (List (String × ZoneSettings)))
    (h : liftPerm s r = Except.ok s') :
    ∃ l, r = Except.ok l ∧ s' = { s with permanent := l } := by
  cases r with
  | error e => simp [liftPerm, Except.map] at h
  | ok l =>
    simp [liftPerm, Except.map] at h
    exact ⟨l, rfl, h.symm⟩

theorem liftRt_ok (s s' : FirewallState) (r : Except String (List (String × ZoneSettings)))
    (h : liftRt s r = Except.ok s') :
    ∃ l, r = Except.ok l ∧ s' = { s with runtime := l } := by
  cases r with
  | error e => simp [liftRt, Except.map] at h
  | ok l =>
    simp [liftRt, Except.map] at h
    exact ⟨l, rfl, h.symm⟩

/-! ### Engine-level lemmas -/

theorem layerRun_cases (get : FirewallState → Except String Bool)
    (setT setF : FirewallState → Except String FirewallState) (want : Bool) (mT mF : String)
    (s s' : FirewallState) (c : Bool) (m : List String)
    (h : layerRun get setT setF want mT mF s = Except.ok (s', c, m)) :
    (get s = Except.ok want ∧ s' = s ∧ c = false ∧ m = []) ∨
    (get s = Except.ok (!want) ∧ (if want then setT s else setF s) = Except.ok s' ∧
      c = true ∧ m = [if want then mT else mF]) := by
  unfold layerRun at h
  cases hg : get s with
  | error e =>
    simp only [hg] at h
    exact Except.noConfusion h
  | ok cur =>
    simp only [hg] at h
    by_cases hc : cur = want
    · subst hc
      rw [if_pos rfl] at h
      simp only [Except.ok.injEq, Prod.mk.injEq] at h
      obtain ⟨h1, h2, h3⟩ := h
      exact Or.inl ⟨rfl, h1.symm, h2.symm, h3.symm⟩
    · have hcur : cur = !want := by
        cases cur <;> cases want <;> simp_all
      subst hcur
      rw [if_neg hc] at h
      cases hs : (if want then setT s else setF s) with
      | error e =>
        simp only [hs] at h
        exact Except.noConfusion h
      | ok s2 =>
        simp only [hs, Except.ok.injEq, Prod.mk.injEq] at h
        obtain ⟨h1, h2, h3⟩ := h
        exact Or.inr ⟨rfl, by rw [h1], h2.symm, h3.symm⟩

theorem layerRun_fixpoint (get : FirewallState → Except String Bool)
    (setT setF : FirewallState → Except String FirewallState) (want : Bool) (mT mF : String)
    (s : FirewallState) (h : get s = Except.ok want) :
    layerRun get setT setF want mT mF s = Except.ok (s, false, []) := by
  simp [layerRun, h]

theorem zGetZoneOfInterface_mem_keys (l : List (String × ZoneSettings)) (i n : String)
    (h : zGetZoneOfInterface l i = some n) : n ∈ l.map Prod.fst := by
  induction l with
  | nil => simp [zGetZoneOfInterface] at h
  | cons hd tl ih =>
    obtain ⟨k, zs⟩ := hd
    by_cases hm : i ∈ zs.interfaces
    · simp [zGetZoneOfInterface, hm] at h
      simp [h]
    · simp [zGetZoneOfInterface, hm] at h
      simp [ih h]

theorem zGetZoneOfInterface_lookup (l : List (String × ZoneSettings)) (i n : String)
    (h : zGetZoneOfInterface l i = some n) (hnd : (l.map Prod.fst).Nodup) :
    ∃ zs, zlookup l n = some zs ∧ i ∈ zs.interfaces := by
  induction l with
  | nil => simp [zGetZoneOfInterface] at h
  | cons hd tl ih =>
    obtain ⟨k, zs⟩ := hd
    simp only [List.map_cons, List.nodup_cons] at hnd
    by_cases hm : i ∈ zs.interfaces
    · simp [zGetZoneOfInterface, hm] at h
      subst h
      exact ⟨zs, by simp [zlookup], hm⟩
    · simp [zGetZoneOfInterface, hm] at h
      obtain ⟨zs', hz, hi⟩ := ih h hnd.2
      have hk : k ≠ n := by
        intro he
        exact hnd.1 (he ▸ zGetZoneOfInterface_mem_keys tl i n h)
      exact ⟨zs', by simpa [zlookup, hk] using hz, hi⟩

theorem zlookup_ifaceRemoveOld (perm : List (String × ZoneSettings)) (iface zone : String) :
    zlookup (ifaceRemoveOld perm iface zone) zone = zlookup perm zone := by
  unfold ifaceRemoveOld
  cases howners : ifaceOwners perm iface with
  | nil => rfl
  | cons o rest =>
    obtain ⟨oname, ozs⟩ := o
    cases rest with
    | nil =>
      dsimp only
      by_cases ho : oname = zone
      · rw [if_pos ho]
      · rw [if_neg ho]
        exact zlookup_zupdate_ne _ _ _ _ (fun he => ho he.symm)
    | cons o2 rest2 => rfl

theorem readZone_zupdate_addIface (perm : List (String × ZoneSettings)) (zone iface : String)
    (fwS : ZoneSettings) (hp : zlookup perm zone = some fwS) :
    readZone (zupdate perm zone (addIface fwS iface)) zone (fun zs => iface ∈ zs.interfaces) =
      Except.ok true := by
  have hl : zlookup (zupdate perm zone (addIface fwS iface)) zone = some (addIface fwS iface) := by
    rw [zlookup_zupdate_self, hp]
    rfl
  unfold readZone
  rw [hl]
  simp [addIface, mem_addIfAbsent_self]

theorem ifaceEnable_get (zone iface : String) (fwo : Bool) (s s' : FirewallState)
    (hnd : (s.permanent.map Prod.fst).Nodup)
    (h : ifaceEnablePermanent zone iface fwo s = Except.ok s') :
    readZone s'.permanent zone (fun zs => iface ∈ zs.interfaces) = Except.ok true := by
  unfold ifaceEnablePermanent at h
  cases hz : zlookup s.permanent zone with
  | none =>
    simp only [hz] at h
    exact Except.noConfusion h
  | some fwS =>
    simp only [hz] at h
    by_cases hf : fwo
    · rw [if_pos hf] at h
      by_cases hlen : 1 < (ifaceOwners s.permanent iface).length
      · rw [if_pos hlen] at h
        exact Except.noConfusion h
      · rw [if_neg hlen] at h
        simp only [Except.ok.injEq] at h
        subst h
        exact readZone_zupdate_addIface _ _ _ _ (by rw [zlookup_ifaceRemoveOld]; exact hz)
    · rw [if_neg hf] at h
      cases hov : zGetZoneOfInterface s.permanent iface with
      | some oldName =>
        simp only [hov] at h
        by_cases ho : oldName = zone
        · rw [if_pos ho] at h
          simp only [Except.ok.injEq] at h
          subst h
          obtain ⟨zs0, hz0, hi0⟩ := zGetZoneOfInterface_lookup s.permanent iface oldName hov hnd
          rw [ho] at hz0
          rw [hz0] at hz
          cases hz
          simp [readZone, hz0, hi0]
        · rw [if_neg ho] at h
          cases hoz : zlookup s.permanent oldName with
          | none =>
            simp only [hoz] at h
            exact Except.noConfusion h
          | some ozs =>
            simp only [hoz, Except.ok.injEq] at h
            subst h
            refine readZone_zupdate_addIface _ _ _ _ ?_
            rw [zlookup_zupdate_ne _ _ _ _ (fun he => ho he.symm)]
            exact hz
      | none =>
        simp only [hov, Except.ok.injEq] at h
        subst h
        exact readZone_zupdate_addIface _ _ _ _ hz

theorem perm_modify_get (s s' : FirewallState) (zone : String)
    (f : ZoneSettings → ZoneSettings) (g : ZoneSettings → Bool) (b : Bool)
    (h : liftPerm s (modifyZone s.permanent zone f) = Except.ok s')
    (hb : ∀ zs, g (f zs) = b) :
    readZone s'.permanent zone g = Except.ok b := by
  obtain ⟨l, hm, hs⟩ := liftPerm_ok _ _ _ h
  subst hs
  exact modifyZone_read _ _ _ _ _ _ hm hb

theorem rt_modify_get (s s' : FirewallState) (base : List (String × ZoneSettings))
    (zone : String) (f : ZoneSettings → ZoneSettings)
    (g : ZoneSettings → Bool) (b : Bool)
    (h : liftRt s (modifyZone base zone f) = Except.ok s')
    (hb : ∀ zs, g (f zs) = b) :
    readZone s'.runtime zone g = Except.ok b := by
  obtain ⟨l, hm, hs⟩ := liftRt_ok _ _ _ h
  subst hs
  exact modifyZone_read _ _ _ _ _ _ hm hb

theorem getPerm_after_setEnabled (canon : String → String) (t : Tx) (s s' : FirewallState)
    (hnd : (s.permanent.map Prod.fst).Nodup)
    (h : setEnabledPermanent canon t s = Except.ok s') :
    getEnabledPermanent canon t s' = Except.ok true := by
  cases hk : t.kind with
  | icmpBlock b =>
    simp only [setEnabledPermanent, hk] at h
    simp only [getEnabledPermanent, hk]
    exact perm_modify_get _ _ _ _ _ _ h (by intro zs; simp [mem_addIfAbsent_self])
  | icmpBlockInversion =>
    simp only [setEnabledPermanent, hk] at h
    simp only [getEnabledPermanent, hk]
    exact perm_modify_get _ _ _ _ _ _ h (by intro zs; rfl)
  | service sv =>
    simp only [setEnabledPermanent, hk] at h
    simp only [getEnabledPermanent, hk]
    exact perm_modify_get _ _ _ _ _ _ h (by intro zs; simp [mem_addIfAbsent_self])
  | protocol pr =>
    simp only [setEnabledPermanent, hk] at h
    simp only [getEnabledPermanent, hk]
    exact perm_modify_get _ _ _ _ _ _ h (by intro zs; simp [mem_addIfAbsent_self])
  | forward =>
    simp only [setEnabledPermanent, hk] at h
    simp only [getEnabledPermanent, hk]
    exact perm_modify_get _ _ _ _ _ _ h (by intro zs; rfl)
  | masquerade =>
    simp only [setEnabledPermanent, hk] at h
    simp only [getEnabledPermanent, hk]
    exact perm_modify_get _ _ _ _ _ _ h (by intro zs; rfl)
  | port po pr =>
    simp only [setEnabledPermanent, hk] at h
    simp only [getEnabledPermanent, hk]
    exact perm_modify_get _ _ _ _ _ _ h (by intro zs; simp [mem_addIfAbsent_self])
  | sourcePort po pr =>
    simp only [setEnabledPermanent, hk] at h
    simp only [getEnabledPermanent, hk]
    exact perm_modify_get _ _ _ _ _ _ h (by intro zs; simp [mem_addIfAbsent_self])
  | interface i =>
    simp only [setEnabledPermanent, hk] at h
    simp only [getEnabledPermanent, hk]
    exact ifaceEnable_get _ _ _ _ _ hnd h
  | richRule r =>
    simp only [setEnabledPermanent, hk] at h
    simp only [getEnabledPermanent, hk]
    exact perm_modify_get _ _ _ _ _ _ h (by intro zs; simp [mem_addIfAbsent_self])
  | source src =>
    simp only [setEnabledPermanent, hk] at h
    simp only [getEnabledPermanent, hk]
    exact perm_modify_get _ _ _ _ _ _ h (by intro zs; simp [mem_addIfAbsent_self])
  | zoneTarget tgt =>
    simp only [setEnabledPermanent, hk] at h
    simp only [getEnabledPermanent, hk]
    exact perm_modify_get _ _ _ _ _ _ h (by intro zs; simp)
  | zoneExistence =>
    simp only [setEnabledPermanent, hk] at h
    simp only [getEnabledPermanent, hk]
    by_cases he : (zlookup s.permanent t.zone).isSome
    · rw [if_pos he] at h
      exact Except.noConfusion h
    · rw [if_neg he] at h
      simp only [Except.ok.injEq] at h
      subst h
      have hz : zlookup s.permanent t.zone = none := by
        cases hxx : zlookup s.permanent t.zone with
        | none => rfl
        | some zs => rw [hxx] at he; simp at he
      have : zlookup (s.permanent ++ [(t.zone, defaultZoneSettings)]) t.zone
          = some defaultZoneSettings := by
        rw [zlookup_append_of_none _ _ _ hz]
        simp [zlookup]
      simp [this]
  | forwardPort po pr tp ta =>
    simp only [setEnabledPermanent, hk] at h
    simp only [getEnabledPermanent, hk]
    exact perm_modify_get _ _ _ _ _ _ h (by intro zs; simp [mem_addIfAbsent_self])

theorem getPerm_after_setDisabled (canon : String → String) (t : Tx) (s s' : FirewallState)
    (htgt : ∀ tgt, t.kind = RuleKind.zoneTarget tgt → tgt ≠ "default")
    (h : setDisabledPermanent canon t s = Except.ok s') :
    getEnabledPermanent canon t s' = Except.ok false := by
  cases hk : t.kind with
  | icmpBlock b =>
    simp only [setDisabledPermanent, hk] at h
    simp only [getEnabledPermanent, hk]
    exact perm_modify_get _ _ _ _ _ _ h (by intro zs; simp [not_mem_removeAll])
  | icmpBlockInversion =>
    simp only [setDisabledPermanent, hk] at h
    simp only [getEnabledPermanent, hk]
    exact perm_modify_get _ _ _ _ _ _ h (by intro zs; rfl)
  | service sv =>
    simp only [setDisabledPermanent, hk] at h
    simp only [getEnabledPermanent, hk]
    exact perm_modify_get _ _ _ _ _ _ h (by intro zs; simp [not_mem_removeAll])
  | protocol pr =>
    simp only [setDisabledPermanent, hk] at h
    simp only [getEnabledPermanent, hk]
    exact perm_modify_get _ _ _ _ _ _ h (by intro zs; simp [not_mem_removeAll])
  | forward =>
    simp only [setDisabledPermanent, hk] at h
    simp only [getEnabledPermanent, hk]
    exact perm_modify_get _ _ _ _ _ _ h (by intro zs; rfl)
  | masquerade =>
    simp only [setDisabledPermanent, hk] at h
    simp only [getEnabledPermanent, hk]
    exact perm_modify_get _ _ _ _ _ _ h (by intro zs; rfl)
  | port po pr =>
    simp only [setDisabledPermanent, hk] at h
    simp only [getEnabledPermanent, hk]
    exact perm_modify_get _ _ _ _ _ _ h (by intro zs; simp [not_mem_removeAll])
  | sourcePort po pr =>
    simp only [setDisabledPermanent, hk] at h
    simp only [getEnabledPermanent, hk]
    exact perm_modify_get _ _ _ _ _ _ h (by intro zs; simp [not_mem_removeAll])
  | interface i =>
    simp only [setDisabledPermanent, hk] at h
    simp only [getEnabledPermanent, hk]
    exact perm_modify_get _ _ _ _ _ _ h (by intro zs; simp [not_mem_removeAll])
  | richRule r =>
    simp only [setDisabledPermanent, hk] at h
    simp only [getEnabledPermanent, hk]
    exact perm_modify_get _ _ _ _ _ _ h (by intro zs; simp [not_mem_removeAll])
  | source src =>
    simp only [setDisabledPermanent, hk] at h
    simp only [getEnabledPermanent, hk]
    exact perm_modify_get _ _ _ _ _ _ h (by intro zs; simp [not_mem_removeAll])
  | zoneTarget tgt =>
    have hne : tgt ≠ "default" := htgt tgt hk
    simp only [setDisabledPermanent, hk] at h
    simp only [getEnabledPermanent, hk]
    refine perm_modify_get _ _ _ _ _ _ h ?_
    intro zs
    simp
    exact fun he => hne he.symm
  | zoneExistence =>
    simp only [setDisabledPermanent, hk] at h
    simp only [getEnabledPermanent, hk]
    cases hz : zlookup s.permanent t.zone with
    | none =>
      simp only [hz] at h
      exact Except.noConfusion h
    | some zs =>
      simp only [hz, Except.ok.injEq] at h
      subst h
      have he := zlookup_filter_eq_none s.permanent t.zone (fun x => !decide (x.1 = t.zone))
        (by intro x hx; simp [hx])
      simp [he]
  | forwardPort po pr tp ta =>
    simp only [setDisabledPermanent, hk] at h
    simp only [getEnabledPermanent, hk]
    exact perm_modify_get _ _ _ _ _ _ h (by intro zs; simp [not_mem_removeAll])

theorem getImm_after_setEnabled (canon : String → String) (t : Tx) (s s' : FirewallState)
    (hfwo : t.fwOffline = false)
    (h : setEnabledImmediate canon t s = Except.ok s') :
    getEnabledImmediate canon t s' = Except.ok true := by
  cases hk : t.kind with
  | icmpBlock b =>
    simp only [setEnabledImmediate, hk] at h
    simp only [getEnabledImmediate, hk]
    exact rt_modify_get _ _ _ _ _ _ _ h (by intro zs; simp [mem_addIfAbsent_self])
  | icmpBlockInversion =>
    simp only [setEnabledImmediate, hk] at h
    simp only [getEnabledImmediate, hk]
    exact rt_modify_get _ _ _ _ _ _ _ h (by intro zs; rfl)
  | service sv =>
    simp only [setEnabledImmediate, hk] at h
    simp only [getEnabledImmediate, hk]
    exact rt_modify_get _ _ _ _ _ _ _ h (by intro zs; simp [mem_addIfAbsent_self])
  | protocol pr =>
    simp only [setEnabledImmediate, hk] at h
    simp only [getEnabledImmediate, hk]
    exact rt_modify_get _ _ _ _ _ _ _ h (by intro zs; simp [mem_addIfAbsent_self])
  | forward =>
    simp only [setEnabledImmediate, hk] at h
    simp only [getEnabledImmediate, hk]
    exact rt_modify_get _ _ _ _ _ _ _ h (by intro zs; rfl)
  | masquerade =>
    simp only [setEnabledImmediate, hk] at h
    simp only [getEnabledImmediate, hk]
    exact rt_modify_get _ _ _ _ _ _ _ h (by intro zs; rfl)
  | port po pr =>
    simp only [setEnabledImmediate, hk] at h
    simp only [getEnabledImmediate, hk, hfwo]
    rw [if_neg (by simp)]
    exact rt_modify_get _ _ _ _ _ _ _ h (by intro zs; simp [mem_addIfAbsent_self])
  | sourcePort po pr =>
    simp only [setEnabledImmediate, hk] at h
    simp only [getEnabledImmediate, hk, hfwo]
    rw [if_neg (by simp)]
    exact rt_modify_get _ _ _ _ _ _ _ h (by intro zs; simp [mem_addIfAbsent_self])
  | interface i =>
    simp only [setEnabledImmediate, hk] at h
    simp only [getEnabledImmediate, hk, hfwo]
    rw [if_neg (by simp)]
    exact rt_modify_get _ _ _ _ _ _ _ h (by intro zs; simp [mem_addIfAbsent_self])
  | richRule r =>
    simp only [setEnabledImmediate, hk] at h
    simp only [getEnabledImmediate, hk]
    exact rt_modify_get _ _ _ _ _ _ _ h (by intro zs; simp [mem_addIfAbsent_self])
  | source src =>
    simp only [setEnabledImmediate, hk] at h
    simp only [getEnabledImmediate, hk]
    exact rt_modify_get _ _ _ _ _ _ _ h (by intro zs; simp [mem_addIfAbsent_self])
  | zoneTarget tgt =>
    simp only [setEnabledImmediate, hk] at h
    exact Except.noConfusion h
  | zoneExistence =>
    simp only [setEnabledImmediate, hk] at h
    exact Except.noConfusion h
  | forwardPort po pr tp ta =>
    simp only [setEnabledImmediate, hk] at h
    simp only [getEnabledImmediate, hk, hfwo]
    rw [if_neg (by simp)]
    exact rt_modify_get _ _ _ _ _ _ _ h (by intro zs; simp [mem_addIfAbsent_self])

theorem getImm_after_setDisabled (canon : String → String) (t : Tx) (s s' : FirewallState)
    (hfwo : t.fwOffline = false)
    (h : setDisabledImmediate canon t s = Except.ok s') :
    getEnabledImmediate canon t s' = Except.ok false := by
  cases hk : t.kind with
  | icmpBlock b =>
    simp only [setDisabledImmediate, hk] at h
    simp only [getEnabledImmediate, hk]
    exact rt_modify_get _ _ _ _ _ _ _ h (by intro zs; simp [not_mem_removeAll])
  | icmpBlockInversion =>
    simp only [setDisabledImmediate, hk] at h
    simp only [getEnabledImmediate, hk]
    exact rt_modify_get _ _ _ _ _ _ _ h (by intro zs; rfl)
  | service sv =>
    simp only [setDisabledImmediate, hk] at h
    simp only [getEnabledImmediate, hk]
    exact rt_modify_get _ _ _ _ _ _ _ h (by intro zs; simp [not_mem_removeAll])
  | protocol pr =>
    simp only [setDisabledImmediate, hk] at h
    simp only [getEnabledImmediate, hk]
    exact rt_modify_get _ _ _ _ _ _ _ h (by intro zs; simp [not_mem_removeAll])
  | forward =>
    simp only [setDisabledImmediate, hk] at h
    simp only [getEnabledImmediate, hk]
    exact rt_modify_get _ _ _ _ _ _ _ h (by intro zs; rfl)
  | masquerade =>
    simp only [setDisabledImmediate, hk] at h
    simp only [getEnabledImmediate, hk]
    exact rt_modify_get _ _ _ _ _ _ _ h (by intro zs; rfl)
  | port po pr =>
    simp only [setDisabledImmediate, hk] at h
    simp only [getEnabledImmediate, hk, hfwo]
    rw [if_neg (by simp)]
    exact rt_modify_get _ _ _ _ _ _ _ h (by intro zs; simp [not_mem_removeAll])
  | sourcePort po pr =>
    simp only [setDisabledImmediate, hk] at h
    simp only [getEnabledImmediate, hk, hfwo]
    rw [if_neg (by simp)]
    exact rt_modify_get _ _ _ _ _ _ _ h (by intro zs; simp [not_mem_removeAll])
  | interface i =>
    simp only [setDisabledImmediate, hk] at h
    simp only [getEnabledImmediate, hk, hfwo]
    rw [if_neg (by simp)]
    exact rt_modify_get _ _ _ _ _ _ _ h (by intro zs; simp [not_mem_removeAll])
  | richRule r =>
    simp only [setDisabledImmediate, hk] at h
    simp only [getEnabledImmediate, hk]
    exact rt_modify_get _ _ _ _ _ _ _ h (by intro zs; simp [not_mem_removeAll])
  | source src =>
    simp only [setDisabledImmediate, hk] at h
    simp only [getEnabledImmediate, hk]
    exact rt_modify_get _ _ _ _ _ _ _ h (by intro zs; simp [not_mem_removeAll])
  | zoneTarget tgt =>
    simp only [setDisabledImmediate, hk] at h
    exact Except.noConfusion h
  | zoneExistence =>
    simp only [setDisabledImmediate, hk] at h
    exact Except.noConfusion h
  | forwardPort po pr tp ta =>
    simp only [setDisabledImmediate, hk] at h
    simp only [getEnabledImmediate, hk, hfwo]
    rw [if_neg (by simp)]
    exact rt_modify_get _ _ _ _ _ _ _ h (by intro zs; simp [not_mem_removeAll])

theorem ifaceEnable_runtime (zone iface : String) (fwo : Bool) (s s' : FirewallState)
    (h : ifaceEnablePermanent zone iface fwo s = Except.ok s') : s'.runtime = s.runtime := by
  unfold ifaceEnablePermanent at h
  cases hz : zlookup s.permanent zone with
  | none =>
    simp only [hz] at h
    exact Except.noConfusion h
  | some fwS =>
    simp only [hz] at h
    by_cases hf : fwo
    · rw [if_pos hf] at h
      by_cases hlen : 1 < (ifaceOwners s.permanent iface).length
      · rw [if_pos hlen] at h
        exact Except.noConfusion h
      · rw [if_neg hlen] at h
        simp only [Except.ok.injEq] at h
        subst h
        rfl
    · rw [if_neg hf] at h
      cases hov : zGetZoneOfInterface s.permanent iface with
      | some oldName =>
        simp only [hov] at h
        by_cases ho : oldName = zone
        · rw [if_pos ho] at h
          simp only [Except.ok.injEq] at h
          subst h
          rfl
        · rw [if_neg ho] at h
          cases hoz : zlookup s.permanent oldName with
          | none =>
            simp only [hoz] at h
            exact Except.noConfusion h
          | some ozs =>
            simp only [hoz, Except.ok.injEq] at h
            subst h
            rfl
      | none =>
        simp only [hov, Except.ok.injEq] at h
        subst h
        rfl

theorem setEnabledPermanent_runtime (canon : String → String) (t : Tx) (s s' : FirewallState)
    (h : setEnabledPermanent canon t s = Except.ok s') : s'.runtime = s.runtime := by
  cases hk : t.kind <;> simp only [setEnabledPermanent, hk] at h
  case interface i => exact ifaceEnable_runtime _ _ _ _ _ h
  case zoneExistence =>
    by_cases he : (zlookup s.permanent t.zone).isSome
    · rw [if_pos he] at h
      exact Except.noConfusion h
    · rw [if_neg he] at h
      simp only [Except.ok.injEq] at h
      subst h
      rfl
  all_goals
    obtain ⟨l, hm, hs⟩ := liftPerm_ok _ _ _ h
  all_goals
    subst hs
  all_goals
    rfl

theorem setDisabledPermanent_runtime (canon : String → String) (t : Tx) (s s' : FirewallState)
    (h : setDisabledPermanent canon t s = Except.ok s') : s'.runtime = s.runtime := by
  cases hk : t.kind <;> simp only [setDisabledPermanent, hk] at h
  case zoneExistence =>
    cases hz : zlookup s.permanent t.zone with
    | none =>
      simp only [hz] at h
      exact Except.noConfusion h
    | some zs =>
      simp only [hz, Except.ok.injEq] at h
      subst h
      rfl
  all_goals
    obtain ⟨l, hm, hs⟩ := liftPerm_ok _ _ _ h
  all_goals
    subst hs
  all_goals
    rfl

theorem setEnabledImmediate_permanent (canon : String → String) (t : Tx) (s s' : FirewallState)
    (h : setEnabledImmediate canon t s = Except.ok s') : s'.permanent = s.permanent := by
  cases hk : t.kind <;> simp only [setEnabledImmediate, hk] at h
  case zoneTarget tgt => exact Except.noConfusion h
  case zoneExistence => exact Except.noConfusion h
  all_goals
    obtain ⟨l, hm, hs⟩ := liftRt_ok _ _ _ h
  all_goals
    subst hs
  all_goals
    rfl

theorem setDisabledImmediate_permanent (canon : String → String) (t : Tx) (s s' : FirewallState)
    (h : setDisabledImmediate canon t s = Except.ok s') : s'.permanent = s.permanent := by
  cases hk : t.kind <;> simp only [setDisabledImmediate, hk] at h
  case zoneTarget tgt => exact Except.noConfusion h
  case zoneExistence => exact Except.noConfusion h
  all_goals
    obtain ⟨l, hm, hs⟩ := liftRt_ok _ _ _ h
  all_goals
    subst hs
  all_goals
    rfl

theorem getPerm_congr (canon : String → String) (t : Tx) (s1 s2 : FirewallState)
    (hp : s1.permanent = s2.permanent) :
    getEnabledPermanent canon t s1 = getEnabledPermanent canon t s2 := by
  cases hk : t.kind <;> simp only [getEnabledPermanent, hk, hp]

theorem getImm_congr (canon : String → String) (t : Tx) (s1 s2 : FirewallState)
    (hfwo : t.fwOffline = false) (hr : s1.runtime = s2.runtime) :
    getEnabledImmediate canon t s1 = getEnabledImmediate canon t s2 := by
  cases hk : t.kind <;> simp [getEnabledImmediate, hk, hfwo, hr]

/-! ### Claim theorems -/

/-- C1 (amended): idempotence of the reconciliation engine.  For every rule
kind, action arguments, desired state and layer selection, if a run of the
engine succeeds (yielding state `s1`), then an immediately repeated
identical run reports `changed = false`, appends no messages and leaves the
firewall state unchanged — except in the zone-target corner excluded by the
hypothesis `hx`: requesting the target `default` with an effectively
disabling desired state re-applies `setTarget("default")` and reports
`changed = true` forever (see the counterexample).  Zone names in the
permanent layer are assumed unique, as the daemon guarantees. -/
theorem firewalld_C1_amended (canon : String → String) (t : Tx) (s s1 : FirewallState)
    (c1 : Bool) (m1 : List String)
    (hnd : (s.permanent.map Prod.fst).Nodup)
    (hx : t.kind = RuleKind.zoneTarget "default" → t.desiredState ∈ t.enabledValues)
    (h : runTransaction canon t s = Except.ok (s1, c1, m1)) :
    runTransaction canon t s1 = Except.ok (s1, false, []) := by
  unfold runTransaction at h ⊢
  cases hw : (if t.desiredState ∈ t.enabledValues then Except.ok true
      else if t.desiredState ∈ t.disabledValues then Except.ok false
      else (Except.error "invalid desired state" : Except String Bool)) with
  | error e =>
    simp only [hw] at h
    exact Except.noConfusion h
  | ok want =>
    simp only [hw] at h ⊢
    have htgt : want = false → ∀ tgt, t.kind = RuleKind.zoneTarget tgt → tgt ≠ "default" := by
      intro hwf tgt hkind heq
      rw [heq] at hkind
      have hin := hx hkind
      rw [if_pos hin] at hw
      rw [hwf] at hw
      simp at hw
    cases hp1 : (if t.permanent then
        layerRun (getEnabledPermanent canon t) (setEnabledPermanent canon t)
          (setDisabledPermanent canon t) want t.enabledMsg t.disabledMsg s
      else Except.ok (s, false, [])) with
    | error e =>
      simp only [hp1] at h
      exact Except.noConfusion h
    | ok resA =>
      obtain ⟨sA, cA, mA⟩ := resA
      simp only [hp1] at h
      have hA : (sA = s ∧ (t.permanent = true → getEnabledPermanent canon t s = Except.ok want)) ∨
          (getEnabledPermanent canon t s = Except.ok (!want) ∧
            (if want then setEnabledPermanent canon t s else setDisabledPermanent canon t s) = Except.ok sA) := by
        by_cases hperm : t.permanent
        · rw [if_pos hperm] at hp1
          rcases layerRun_cases _ _ _ _ _ _ _ _ _ _ hp1 with ⟨hg, hse, _, _⟩ | ⟨hg, hset, _, _⟩
          · exact Or.inl ⟨hse, fun _ => hg⟩
          · exact Or.inr ⟨hg, hset⟩
        · rw [if_neg hperm] at hp1
          simp only [Except.ok.injEq, Prod.mk.injEq] at hp1
          exact Or.inl ⟨hp1.1.symm, fun hc => absurd hc hperm⟩
      have hgA : t.permanent = true → getEnabledPermanent canon t sA = Except.ok want := by
        intro hperm
        rcases hA with ⟨hse, hg⟩ | ⟨hg, hset⟩
        · rw [hse]
          exact hg hperm
        · cases hwant : want with
          | true =>
            rw [hwant] at hset
            rw [if_pos rfl] at hset
            exact getPerm_after_setEnabled canon t s sA hnd hset
          | false =>
            rw [hwant] at hset
            rw [if_neg (by simp)] at hset
            exact getPerm_after_setDisabled canon t s sA (htgt hwant) hset
      have hArt : sA.runtime = s.runtime := by
        rcases hA with ⟨hse, _⟩ | ⟨_, hset⟩
        · rw [hse]
        · cases hwant : want with
          | true =>
            rw [hwant] at hset
            rw [if_pos rfl] at hset
            exact setEnabledPermanent_runtime canon t s sA hset
          | false =>
            rw [hwant] at hset
            rw [if_neg (by simp)] at hset
            exact setDisabledPermanent_runtime canon t s sA hset
      by_cases himm : t.immediate
      · rw [if_pos himm] at h
        cases hoffb : t.fwOffline with
        | true =>
          rw [hoffb] at h
          rw [if_pos rfl] at h
          exact Except.noConfusion h
        | false =>
          rw [hoffb] at h
          rw [if_neg (by simp)] at h
          cases hi1 : layerRun (getEnabledImmediate canon t) (setEnabledImmediate canon t)
              (setDisabledImmediate canon t) want t.enabledMsg t.disabledMsg sA with
          | error e =>
            simp only [hi1] at h
            exact Except.noConfusion h
          | ok resB =>
            obtain ⟨sB, cB, mB⟩ := resB
            simp only [hi1, Except.ok.injEq, Prod.mk.injEq] at h
            obtain ⟨hs1, _, _⟩ := h
            subst hs1
            have hfacts : getEnabledImmediate canon t sB = Except.ok want ∧
                sB.permanent = sA.permanent := by
              rcases layerRun_cases _ _ _ _ _ _ _ _ _ _ hi1 with ⟨hg, hse, _, _⟩ | ⟨hg, hset, _, _⟩
              · constructor
                · rw [hse]
                  exact hg
                · rw [hse]
              · cases hwant : want with
                | true =>
                  rw [hwant] at hset
                  rw [if_pos rfl] at hset
                  exact ⟨getImm_after_setEnabled canon t sA sB hoffb hset,
                    setEnabledImmediate_permanent canon t sA sB hset⟩
                | false =>
                  rw [hwant] at hset
                  rw [if_neg (by simp)] at hset
                  exact ⟨getImm_after_setDisabled canon t sA sB hoffb hset,
                    setDisabledImmediate_permanent canon t sA sB hset⟩
            obtain ⟨hgB, hBperm⟩ := hfacts
            have hstep1 : (if t.permanent then
                layerRun (getEnabledPermanent canon t) (setEnabledPermanent canon t)
                  (setDisabledPermanent canon t) want t.enabledMsg t.disabledMsg sB
              else Except.ok (sB, false, [])) = Except.ok (sB, false, []) := by
              by_cases hperm : t.permanent
              · rw [if_pos hperm]
                refine layerRun_fixpoint _ _ _ _ _ _ _ ?_
                rw [getPerm_congr canon t sB sA hBperm]
                exact hgA hperm
              · rw [if_neg hperm]
            simp only [hstep1]
            have hstep2 : (if t.immediate then
                if false = true then Except.error offlineImmediateMsg
                else layerRun (getEnabledImmediate canon t) (setEnabledImmediate canon t)
                  (setDisabledImmediate canon t) want t.enabledMsg t.disabledMsg sB
              else Except.ok (sB, false, [])) = Except.ok (sB, false, []) := by
              rw [if_pos himm]
              rw [if_neg (by simp)]
              exact layerRun_fixpoint _ _ _ _ _ _ _ hgB
            simp only [hstep2]
            rfl
      · rw [if_neg himm] at h
        simp only [Except.ok.injEq, Prod.mk.injEq] at h
        obtain ⟨hs1, _, _⟩ := h
        subst hs1
        have hstep1 : (if t.permanent then
            layerRun (getEnabledPermanent canon t) (setEnabledPermanent canon t)
              (setDisabledPermanent canon t) want t.enabledMsg t.disabledMsg sA
          else Except.ok (sA, false, [])) = Except.ok (sA, false, []) := by
          by_cases hperm : t.permanent
          · rw [if_pos hperm]
            exact layerRun_fixpoint _ _ _ _ _ _ _ (hgA hperm)
          · rw [if_neg hperm]
        simp only [hstep1]
        have hstep2 : (if t.immediate then
            if t.fwOffline then Except.error offlineImmediateMsg
            else layerRun (getEnabledImmediate canon t) (setEnabledImmediate canon t)
              (setDisabledImmediate canon t) want t.enabledMsg t.disabledMsg sA
          else Except.ok (sA, false, [])) = Except.ok (sA, false, []) := by
          rw [if_neg himm]
        simp only [hstep2]
        rfl

/-- Counterexample to C1 as stated: for the zone-target kind with target
`default` and desired state `absent`, the engine reports `changed = true` on
the first run AND on the second identical run (the state never changes, yet
`setTarget("default")` is re-applied each time), so `changed = false` is
never reached. -/
theorem firewalld_C1_counterexample :
    runTransaction (fun r => r) zoneTargetDefaultTx publicDefaultState =
      Except.ok (publicDefaultState, true, ["Reset zone public target to default"]) ∧
    (runTransaction (fun r => r) zoneTargetDefaultTx publicDefaultState).bind
        (fun r => runTransaction (fun r2 => r2) zoneTargetDefaultTx r.1) =
      Except.ok (publicDefaultState, true, ["Reset zone public target to default"]) := by
  constructor
  · rfl
  · rfl

/-- Witness for C1 (amended): enabling the `https` service in the permanent
layer of a concrete state; the second run reports no change. -/
theorem firewalld_C1_witness :
    runTransaction (fun r => r) httpsTx httpsState1 = Except.ok (httpsState1, false, []) :=
  firewalld_C1_amended (fun r => r) httpsTx publicDefaultState httpsState1 true [""]
    (by simp [publicDefaultState])
    (fun hkind => absurd hkind (by simp [httpsTx, mkTx]))
    (by rfl)

theorem zlookup_of_mem_nodup (l : List (String × ZoneSettings)) (A : String) (zA : ZoneSettings)
    (hmem : (A, zA) ∈ l) (hnd : (l.map Prod.fst).Nodup) : zlookup l A = some zA := by
  induction l with
  | nil => simp at hmem
  | cons hd tl ih =>
    obtain ⟨n, zs⟩ := hd
    simp only [List.map_cons, List.nodup_cons] at hnd
    rcases List.mem_cons.mp hmem with heq | htl
    · injection heq with h1 h2
      subst h1
      subst h2
      simp [zlookup]
    · have hA : A ∈ tl.map Prod.fst := by
        exact List.mem_map.mpr ⟨(A, zA), htl, rfl⟩
      have hn : n ≠ A := fun he => hnd.1 (he ▸ hA)
      simp only [zlookup, if_neg hn]
      exact ih htl hnd.2

theorem zGetZone_of_owners_singleton (l : List (String × ZoneSettings)) (iface A : String)
    (zA : ZoneSettings) (h : ifaceOwners l iface = [(A, zA)]) :
    zGetZoneOfInterface l iface = some A := by
  induction l with
  | nil => simp [ifaceOwners] at h
  | cons hd tl ih =>
    obtain ⟨n, zs⟩ := hd
    by_cases hm : iface ∈ zs.interfaces
    · simp only [ifaceOwners, List.filter, decide_eq_true hm] at h
      injection h with h1 h2
      injection h1 with hA hz
      subst hA
      simp [zGetZoneOfInterface, hm]
    · simp only [ifaceOwners, List.filter, decide_eq_false hm] at h
      simp only [zGetZoneOfInterface, if_neg hm]
      exact ih h

theorem owners_mem (l : List (String × ZoneSettings)) (iface A : String) (zA : ZoneSettings)
    (h : ifaceOwners l iface = [(A, zA)]) : (A, zA) ∈ l := by
  have : (A, zA) ∈ ifaceOwners l iface := by
    rw [h]
    simp
  exact List.mem_of_mem_filter this

/-- C2: interface single-ownership.  When the permanent layer lists the
interface in exactly one zone `A` different from the target zone `B`,
`InterfaceTransaction.set_enabled_permanent` (in either offline or online
mode) succeeds in one operation after which the interface is absent from
`A`'s persistent interface set and present in `B`'s, with the runtime layer
untouched; and in offline mode, when the interface is found in more than
one persistent zone definition, the operation fails fatally with the
message surfacing the count and performs no reassignment. -/
theorem firewalld_C2 (canon : String → String) (s : FirewallState) (iface B : String)
    (fwo : Bool) (zB : ZoneSettings)
    (hnd : (s.permanent.map Prod.fst).Nodup)
    (hB : zlookup s.permanent B = some zB) :
    (∀ A zA, A ≠ B → ifaceOwners s.permanent iface = [(A, zA)] →
      ∃ s', setEnabledPermanent canon (mkTx (RuleKind.interface iface) B "enabled" true false fwo 0) s = Except.ok s' ∧
        zlookup s'.permanent A = some (delIface zA iface) ∧
        iface ∉ (delIface zA iface).interfaces ∧
        zlookup s'.permanent B = some (addIface zB iface) ∧
        iface ∈ (addIface zB iface).interfaces ∧
        s'.runtime = s.runtime) ∧
    (fwo = true → 2 ≤ (ifaceOwners s.permanent iface).length →
      setEnabledPermanent canon (mkTx (RuleKind.interface iface) B "enabled" true false fwo 0) s =
        Except.error (multiZoneErrMsg iface (ifaceOwners s.permanent iface).length)) := by
  constructor
  · intro A zA hAB howners
    have hmemA : zlookup s.permanent A = some zA :=
      zlookup_of_mem_nodup _ _ _ (owners_mem _ _ _ _ howners) hnd
    have hgoal : ∀ s' : FirewallState, s'.permanent =
        zupdate (zupdate s.permanent A (delIface zA iface)) B (addIface zB iface) →
        s'.runtime = s.runtime →
        zlookup s'.permanent A = some (delIface zA iface) ∧
        iface ∉ (delIface zA iface).interfaces ∧
        zlookup s'.permanent B = some (addIface zB iface) ∧
        iface ∈ (addIface zB iface).interfaces ∧
        s'.runtime = s.runtime := by
      intro s' hsp hsr
      refine ⟨?_, ?_, ?_, ?_, hsr⟩
      · rw [hsp, zlookup_zupdate_ne _ _ _ _ hAB, zlookup_zupdate_self, hmemA]
        rfl
      · simp [delIface, not_mem_removeAll]
      · rw [hsp, zlookup_zupdate_self, zlookup_zupdate_ne _ _ _ _ (fun he => hAB he.symm), hB]
        rfl
      · simp [addIface, mem_addIfAbsent_self]
    simp only [setEnabledPermanent, mkTx]
    unfold ifaceEnablePermanent
    simp only [hB]
    cases fwo with
    | true =>
      rw [if_pos rfl]
      have hlen : ¬(1 < (ifaceOwners s.permanent iface).length) := by
        rw [howners]
        simp
      rw [if_neg hlen]
      have hrem : ifaceRemoveOld s.permanent iface B = zupdate s.permanent A (delIface zA iface) := by
        unfold ifaceRemoveOld
        simp only [howners]
        rw [if_neg hAB]
      refine ⟨_, rfl, ?_⟩
      exact hgoal _ (by rw [withPerm, hrem]) rfl
    | false =>
      rw [if_neg (by simp)]
      have hfirst : zGetZoneOfInterface s.permanent iface = some A :=
        zGetZone_of_owners_singleton _ _ _ _ howners
      simp only [hfirst]
      rw [if_neg hAB]
      simp only [hmemA]
      refine ⟨_, rfl, ?_⟩
      exact hgoal _ (by rw [withPerm]) rfl
  · intro hf hlen
    simp only [setEnabledPermanent, mkTx]
    unfold ifaceEnablePermanent
    simp only [hB]
    rw [hf]
    rw [if_pos rfl]
    rw [if_pos (by omega)]

/-- Witness for C2: moving `eth2` from zone `A` to zone `B` offline, and the
two-owner fatal error, on concrete states. -/
theorem firewalld_C2_witness :
    (∃ s', setEnabledPermanent (fun r => r)
        (mkTx (RuleKind.interface "eth2") "B" "enabled" true false true 0)
        ifaceDemoState = Except.ok s' ∧
      zlookup s'.permanent "A" = some (delIface ifaceZoneA "eth2") ∧
      "eth2" ∉ (delIface ifaceZoneA "eth2").interfaces ∧
      zlookup s'.permanent "B" = some (addIface defaultZoneSettings "eth2") ∧
      "eth2" ∈ (addIface defaultZoneSettings "eth2").interfaces ∧
      s'.runtime = ifaceDemoState.runtime) ∧
    setEnabledPermanent (fun r => r)
        (mkTx (RuleKind.interface "eth2") "B" "enabled" true false true 0)
        ifaceDemoState2 =
      Except.error (multiZoneErrMsg "eth2" (ifaceOwners ifaceDemoState2.permanent "eth2").length) :=
  ⟨(firewalld_C2 (fun r => r) ifaceDemoState "eth2" "B" true defaultZoneSettings
      (by simp [ifaceDemoState]) (by rfl)).1 "A" ifaceZoneA (by simp) (by rfl),
   (firewalld_C2 (fun r => r) ifaceDemoState2 "eth2" "B" true defaultZoneSettings
      (by simp [ifaceDemoState2]) (by rfl)).2 rfl (by rfl)⟩

theorem runTransaction_permonly_get (canon : String → String) (t : Tx) (s s1 : FirewallState)
    (c1 : Bool) (m1 : List String) (want : Bool)
    (hperm : t.permanent = true) (himm : t.immediate = false)
    (hwant : (if t.desiredState ∈ t.enabledValues then Except.ok true
      else if t.desiredState ∈ t.disabledValues then Except.ok false
      else (Except.error "invalid desired state" : Except String Bool)) = Except.ok want)
    (hset : ∀ u u' : FirewallState,
      (if want then setEnabledPermanent canon t u else setDisabledPermanent canon t u) = Except.ok u' →
      getEnabledPermanent canon t u' = Except.ok want)
    (h : runTransaction canon t s = Except.ok (s1, c1, m1)) :
    getEnabledPermanent canon t s1 = Except.ok want := by
  unfold runTransaction at h
  simp only [hwant] at h
  rw [if_pos hperm] at h
  cases hp1 : layerRun (getEnabledPermanent canon t) (setEnabledPermanent canon t)
      (setDisabledPermanent canon t) want t.enabledMsg t.disabledMsg s with
  | error e =>
    simp only [hp1] at h
    exact Except.noConfusion h
  | ok resA =>
    obtain ⟨sA, cA, mA⟩ := resA
    simp only [hp1] at h
    rw [if_neg (by simp [himm])] at h
    simp only [Except.ok.injEq, Prod.mk.injEq] at h
    obtain ⟨hs1, _, _⟩ := h
    subst hs1
    rcases layerRun_cases _ _ _ _ _ _ _ _ _ _ hp1 with ⟨hg, hse, _, _⟩ | ⟨hg, hset2, _, _⟩
    · rw [hse]
      exact hg
    · exact hset _ _ hset2

/-- C3 (amended): for `icmp_block_inversion=true` with `state=disabled`, the
boolean-flag normalization of `main` produces the effective state
`disabled` — not `enabled` as the specification scenario says — because
`(state == enabled) == flag` is `(False == True) = False`; consequently a
successful permanent-layer run of the transaction `main` constructs leaves
the zone's icmp-block-inversion flag unset (clearing it if it was set). -/
theorem firewalld_C3_amended (canon : String → String) (s s' : FirewallState)
    (zone : String) (fwo : Bool) (timeout : Nat) (c : Bool) (m : List String)
    (h : runTransaction canon
      (mkTx RuleKind.icmpBlockInversion zone (normalizeFlagState "disabled" true) true false fwo timeout) s =
      Except.ok (s', c, m)) :
    normalizeFlagState "disabled" true = "disabled" ∧
    ∃ zs', zlookup s'.permanent zone = some zs' ∧ zs'.icmpBlockInversion = false := by
  refine ⟨rfl, ?_⟩
  have hget := runTransaction_permonly_get canon _ s s' c m false rfl rfl (by rfl) ?hset h
  · simp only [getEnabledPermanent, mkTx] at hget
    unfold readZone at hget
    cases hz' : zlookup s'.permanent zone with
    | none =>
      simp only [hz'] at hget
      exact Except.noConfusion hget
    | some zs' =>
      simp only [hz'] at hget
      exact ⟨zs', rfl, Except.ok.inj hget⟩
  case hset =>
    intro u u' hsu
    rw [if_neg (by simp)] at hsu
    exact getPerm_after_setDisabled canon _ u u' (fun tgt htk => absurd htk (by simp [mkTx])) hsu

/-- Counterexample to C3 as stated: the normalization maps
`(state=disabled, flag=true)` to `disabled`, not `enabled`, and the full
invocation on a zone with the flag unset reports no change and leaves the
flag unset — the icmp-block-inversion flag does not become set. -/
theorem firewalld_C3_counterexample :
    normalizeFlagState "disabled" true = "disabled" ∧
    ("disabled" = "enabled" → False) ∧
    mainRun (fun r => r) false c3Params publicDefaultState =
      Except.ok (publicDefaultState, false, []) :=
  ⟨rfl, by decide, rfl⟩

/-- Witness for C3 (amended): the transaction run on a concrete state whose
`public` zone has the flag set clears the flag. -/
theorem firewalld_C3_witness :
    normalizeFlagState "disabled" true = "disabled" ∧
    ∃ zs', zlookup publicDefaultState.permanent "public" = some zs' ∧
      zs'.icmpBlockInversion = false :=
  firewalld_C3_amended (fun r => r) inversionOnState publicDefaultState "public" false 0
    true [""] (by rfl)

theorem pysplit_ne_nil (c : Char) (l : List Char) : pysplit c l ≠ [] := by
  cases l with
  | nil => simp [pysplit]
  | cons x xs =>
    unfold pysplit
    by_cases h : x = c
    · simp [h]
    · simp [h]

theorem length_pysplit (c : Char) (l : List Char) : (pysplit c l).length = l.count c + 1 := by
  induction l with
  | nil => rfl
  | cons x xs ih =>
    unfold pysplit
    by_cases h : x = c
    · subst h
      simp [List.count_cons, ih]
    · have hne := pysplit_ne_nil c xs
      have hlen : (pysplit c xs).length ≠ 0 := by
        intro h0
        exact hne (List.length_eq_zero.mp h0)
      simp only [if_neg h]
      simp [List.length_cons, List.length_tail, List.count_cons, h, ih]

theorem count_dropWhile (p : Char → Bool) (l : List Char) (c : Char) (hc : p c = false) :
    (l.dropWhile p).count c = l.count c := by
  conv_rhs => rw [← List.takeWhile_append_dropWhile (p := p) (l := l)]
  rw [List.count_append]
  have h0 : (l.takeWhile p).count c = 0 := by
    rw [List.count_eq_zero]
    intro hmem
    have := List.mem_takeWhile_imp hmem
    rw [hc] at this
    exact Bool.noConfusion this
  omega

theorem count_pystrip (l : List Char) (c : Char) (hc : c.isWhitespace = false) :
    (pystrip l).count c = l.count c := by
  unfold pystrip
  rw [List.count_reverse, count_dropWhile _ _ _ hc, List.count_reverse,
    count_dropWhile _ _ _ hc]

theorem parsePortParam_noSlash (msg : String) (v : String) (h : '/' ∉ v.data) :
    parsePortParam msg v = PortParse.fail msg := by
  unfold parsePortParam
  rw [if_neg h]

theorem mem_slash_of_pystrip_count (v : String) (hpos : 0 < (pystrip v.data).count '/') :
    '/' ∈ v.data := by
  have := count_pystrip v.data '/' (by decide)
  rw [this] at hpos
  exact List.count_pos_iff.mp hpos

theorem parsePortParam_emptyProto (msg : String) (v : String) (w : List Char)
    (h : pysplit '/' (pystrip v.data) = [w, []]) :
    parsePortParam msg v = PortParse.fail msg := by
  have hcount : (pystrip v.data).count '/' + 1 = 2 := by
    rw [← length_pysplit, h]
    rfl
  have hmem : '/' ∈ v.data := mem_slash_of_pystrip_count v (by omega)
  unfold parsePortParam
  rw [if_pos hmem]
  simp only [h]
  rfl

theorem parsePortParam_manySlashes (msg : String) (v : String)
    (h : 2 ≤ v.data.count '/') :
    parsePortParam msg v = PortParse.exc unpackErrMsg := by
  have hstripcount : (pystrip v.data).count '/' = v.data.count '/' :=
    count_pystrip v.data '/' (by decide)
  have hmem : '/' ∈ v.data := mem_slash_of_pystrip_count v (by omega)
  have hlen : 3 ≤ (pysplit '/' (pystrip v.data)).length := by
    rw [length_pysplit]
    omega
  unfold parsePortParam
  rw [if_pos hmem]
  cases hsp : pysplit '/' (pystrip v.data) with
  | nil => rfl
  | cons a t =>
    cases t with
    | nil => rfl
    | cons b t2 =>
      cases t2 with
      | nil =>
        rw [hsp] at hlen
        simp at hlen
      | cons d t3 => rfl

/-- C7: for every `port` or `source_port` value lacking a protocol suffix —
no slash at all, or a single slash with an empty protocol part — the
invocation fails with the `improper ... format (missing protocol?)` message
and, the result being an error, no transaction is run and neither layer is
mutated (the dispatch phase is only reached when both parses succeed). -/
theorem firewalld_C7 (canon : String → String) (fwo : Bool) (p : Params) (s : FirewallState)
    (perm imm : Bool)
    (hl : resolveLayers p.offline p.permanent p.immediate fwo = Except.ok (perm, imm)) :
    (∀ v, p.port = some v → '/' ∉ v.data →
      mainRun canon fwo p s = Except.error (ModuleError.failJson portFmtMsg)) ∧
    (∀ v w, p.port = some v → pysplit '/' (pystrip v.data) = [w, []] →
      mainRun canon fwo p s = Except.error (ModuleError.failJson portFmtMsg)) ∧
    (∀ v, p.port = none → p.source_port = some v → '/' ∉ v.data →
      mainRun canon fwo p s = Except.error (ModuleError.failJson sourcePortFmtMsg)) ∧
    (∀ v w, p.port = none → p.source_port = some v → pysplit '/' (pystrip v.data) = [w, []] →
      mainRun canon fwo p s = Except.error (ModuleError.failJson sourcePortFmtMsg)) := by
  refine ⟨?_, ?_, ?_, ?_⟩
  · intro v hp hv
    unfold mainRun
    simp only [hl, hp, parsePortOpt, parsePortParam_noSlash portFmtMsg v hv]
  · intro v w hp hv
    unfold mainRun
    simp only [hl, hp, parsePortOpt, parsePortParam_emptyProto portFmtMsg v w hv]
  · intro v hp hsp hv
    unfold mainRun
    simp only [hl, hp, hsp, parsePortOpt, parsePortParam_noSlash sourcePortFmtMsg v hv]
  · intro v w hp hsp hv
    unfold mainRun
    simp only [hl, hp, hsp, parsePortOpt, parsePortParam_emptyProto sourcePortFmtMsg v w hv]

/-- Witness for C7: the spec scenario `port=8081` (no protocol suffix) fails
with the `improper port format` message before any transaction runs. -/
theorem firewalld_C7_witness :
    mainRun (fun r => r) false c7Params publicDefaultState =
      Except.error (ModuleError.failJson portFmtMsg) :=
  (firewalld_C7 (fun r => r) false c7Params publicDefaultState true false rfl).1
    "8081" rfl (by decide)

/-- C10: port and source_port parsing is only total for values with at most
one slash: a value with two or more `/` characters makes the two-variable
unpacking of `split` raise an unhandled `ValueError` (a Python exception)
instead of the clean `improper port format` module failure, and `main`
propagates it for both the `port` and the `source_port` parameter. -/
theorem firewalld_C10 (canon : String → String) (fwo : Bool) (p : Params) (s : FirewallState)
    (perm imm : Bool)
    (hl : resolveLayers p.offline p.permanent p.immediate fwo = Except.ok (perm, imm)) :
    (∀ msg v, 2 ≤ (v : String).data.count '/' →
      parsePortParam msg v = PortParse.exc unpackErrMsg) ∧
    (∀ v, p.port = some v → 2 ≤ v.data.count '/' →
      mainRun canon fwo p s = Except.error (ModuleError.pythonException unpackErrMsg)) ∧
    (∀ v, p.port = none → p.source_port = some v → 2 ≤ v.data.count '/' →
      mainRun canon fwo p s = Except.error (ModuleError.pythonException unpackErrMsg)) := by
  refine ⟨?_, ?_, ?_⟩
  · intro msg v hv
    exact parsePortParam_manySlashes msg v hv
  · intro v hp hv
    unfold mainRun
    simp only [hl, hp, parsePortOpt, parsePortParam_manySlashes portFmtMsg v hv]
  · intro v hp hsp hv
    unfold mainRun
    simp only [hl, hp, hsp, parsePortOpt, parsePortParam_manySlashes sourcePortFmtMsg v hv]

/-- Witness for C10: the value `80/tcp/x` raises the unpacking exception. -/
theorem firewalld_C10_witness :
    parsePortParam portFmtMsg "80/tcp/x" = PortParse.exc unpackErrMsg ∧
    mainRun (fun r => r) false c10Params publicDefaultState =
      Except.error (ModuleError.pythonException unpackErrMsg) :=
  ⟨(firewalld_C10 (fun r => r) false c10Params publicDefaultState true false rfl).1
      portFmtMsg "80/tcp/x" (by decide),
   (firewalld_C10 (fun r => r) false c10Params publicDefaultState true false rfl).2.1
      "80/tcp/x" rfl (by decide)⟩

/-- Counterexample to C4 as stated: requesting `state=present` together with
the non-zone, non-target primitive `forward` (set explicitly to `false`) is
NOT rejected: the truthiness-based `modification` check does not see the
falsy value, no `ConfigurationError` is raised, and the invocation runs the
forward transaction (mutating the zone's forward flag) followed by the zone
transaction. -/
theorem firewalld_C4_counterexample :
    mainRun (fun r => r) false c4Params publicDefaultState =
      Except.ok (forwardOnState, false, ["Added forward to zone public"]) ∧
    mainRun (fun r => r) false c4Params publicDefaultState ≠
      Except.error (ModuleError.failJson absentPresentMsg) := by
  refine ⟨rfl, ?_⟩
  intro hc
  rw [show mainRun (fun r => r) false c4Params publicDefaultState =
    Except.ok (forwardOnState, false, ["Added forward to zone public"]) from rfl] at hc
  exact Except.noConfusion hc

/-- C4 (amended): the absent/present gate of `main` is truthiness-based: an
invocation whose parsed parameters make the `modification` flag true (some
primitive parameter is truthy) with `state` absent or present and no
`target` fails with the `absent and present state can only be used in zone
level operations` error before any transaction runs (the result being an
error, no mutation of either layer occurs); a primitive parameter carrying
a falsy value — such as `forward=false` — escapes the gate (see the
counterexample), and `target` is exempt because present/absent are aliases
of enabled/disabled for the zone-target kind. -/
theorem firewalld_C4_amended (canon : String → String) (fwo : Bool) (p : Params)
    (s : FirewallState) (perm imm : Bool)
    (hl : resolveLayers p.offline p.permanent p.immediate fwo = Except.ok (perm, imm))
    (hport : p.port = none) (hsport : p.source_port = none) (hpf : p.port_forward = none)
    (hmod : modificationFlag p none none none = true)
    (hst : p.state = "absent" ∨ p.state = "present")
    (htgt : p.target = none) :
    mainRun canon fwo p s = Except.error (ModuleError.failJson absentPresentMsg) := by
  unfold mainRun
  simp only [hl, hport, hsport, hpf, parsePortOpt, parsePortForwardOpt]
  rw [if_pos ⟨hmod, hst, htgt⟩]

/-- Witness for C4 (amended): `service=https` with `state=present` fails
with the gate error. -/
theorem firewalld_C4_witness :
    mainRun (fun r => r) false c4WitnessParams publicDefaultState =
      Except.error (ModuleError.failJson absentPresentMsg) :=
  firewalld_C4_amended (fun r => r) false c4WitnessParams publicDefaultState true false
    rfl rfl rfl rfl (by decide) (Or.inr rfl) rfl

/-- C9: for each of the three boolean-flag families — `forward`,
`masquerade`, `icmp_block_inversion` — an invocation that sets that one
parameter explicitly to `false` together with `state` absent or present
(no other primitive set) is NOT rejected by the `absent and present` gate
(which tests truthiness); instead the flag's transaction (with its
XOR-normalized effective state) runs first and the zone-existence
transaction runs afterwards in the same invocation, and the invocation's
`changed` flag is `c2`, the flag of the LAST transaction (the zone one) —
the flag transaction's `c1` is discarded rather than OR-ed in. -/
theorem firewalld_C9 (canon : String → String) (fwo : Bool) (p : Params)
    (s : FirewallState) (perm imm : Bool)
    (hl : resolveLayers p.offline p.permanent p.immediate fwo = Except.ok (perm, imm))
    (h1 : p.icmp_block = none) (h3 : p.service = none)
    (h4 : p.protocol = none) (h5 : p.port = none) (h6 : p.source_port = none)
    (h7 : p.port_forward = none) (h8 : p.rich_rule = none) (h9 : p.interface = none)
    (h11 : p.source = none) (h12 : p.target = none)
    (hst : p.state = "absent" ∨ p.state = "present") :
    (∀ s1 s2 : FirewallState, ∀ c1 c2 : Bool, ∀ m1 m2 : List String,
      p.forward = some false → p.masquerade = none → p.icmp_block_inversion = none →
      runTransaction canon
        (mkTx RuleKind.forward p.zone (normalizeFlagState p.state false) perm imm fwo p.timeout) s =
        Except.ok (s1, c1, m1) →
      runTransaction canon (mkZoneTx p.zone p.state perm imm fwo p.timeout) s1 =
        Except.ok (s2, c2, m2) →
      ∃ msgs, mainRun canon fwo p s = Except.ok (s2, c2, msgs)) ∧
    (∀ s1 s2 : FirewallState, ∀ c1 c2 : Bool, ∀ m1 m2 : List String,
      p.masquerade = some false → p.forward = none → p.icmp_block_inversion = none →
      runTransaction canon
        (mkTx RuleKind.masquerade p.zone (normalizeFlagState p.state false) perm imm fwo p.timeout) s =
        Except.ok (s1, c1, m1) →
      runTransaction canon (mkZoneTx p.zone p.state perm imm fwo p.timeout) s1 =
        Except.ok (s2, c2, m2) →
      ∃ msgs, mainRun canon fwo p s = Except.ok (s2, c2, msgs)) ∧
    (∀ s1 s2 : FirewallState, ∀ c1 c2 : Bool, ∀ m1 m2 : List String,
      p.icmp_block_inversion = some false → p.forward = none → p.masquerade = none →
      runTransaction canon
        (mkTx RuleKind.icmpBlockInversion p.zone (normalizeFlagState p.state false) perm imm fwo p.timeout) s =
        Except.ok (s1, c1, m1) →
      runTransaction canon (mkZoneTx p.zone p.state perm imm fwo p.timeout) s1 =
        Except.ok (s2, c2, m2) →
      ∃ msgs, mainRun canon fwo p s = Except.ok (s2, c2, msgs)) := by
  refine ⟨?_, ?_, ?_⟩
  · intro s1 s2 c1 c2 m1 m2 hfwd hmasq hinv hrun1 hrun2
    have hmod : modificationFlag p none none none = false := by
      simp [modificationFlag, h1, hinv, h3, h4, h8, h9, hmasq, h11, h12, hfwd,
        truthyStr, truthyBool]
    unfold mainRun
    simp only [hl, h5, h6, h7, parsePortOpt, parsePortForwardOpt]
    rw [if_neg (fun hcontr => Bool.noConfusion (hmod ▸ hcontr.1))]
    unfold mainDispatch
    simp only [h1, hinv, h3, h4, h8, h9, hmasq, h11, h12, hfwd, maybeStep, andThen,
      runStep, hrun1]
    rw [if_pos ⟨hmod, hst⟩]
    simp only [runStep, hrun2]
    exact ⟨_, rfl⟩
  · intro s1 s2 c1 c2 m1 m2 hmasq hfwd hinv hrun1 hrun2
    have hmod : modificationFlag p none none none = false := by
      simp [modificationFlag, h1, hinv, h3, h4, h8, h9, hmasq, h11, h12, hfwd,
        truthyStr, truthyBool]
    unfold mainRun
    simp only [hl, h5, h6, h7, parsePortOpt, parsePortForwardOpt]
    rw [if_neg (fun hcontr => Bool.noConfusion (hmod ▸ hcontr.1))]
    unfold mainDispatch
    simp only [h1, hinv, h3, h4, h8, h9, hmasq, h11, h12, hfwd, maybeStep, andThen,
      runStep, hrun1]
    rw [if_pos ⟨hmod, hst⟩]
    simp only [runStep, hrun2]
    exact ⟨_, rfl⟩
  · intro s1 s2 c1 c2 m1 m2 hinv hfwd hmasq hrun1 hrun2
    have hmod : modificationFlag p none none none = false := by
      simp [modificationFlag, h1, hinv, h3, h4, h8, h9, hmasq, h11, h12, hfwd,
        truthyStr, truthyBool]
    unfold mainRun
    simp only [hl, h5, h6, h7, parsePortOpt, parsePortForwardOpt]
    rw [if_neg (fun hcontr => Bool.noConfusion (hmod ▸ hcontr.1))]
    unfold mainDispatch
    simp only [h1, hinv, h3, h4, h8, h9, hmasq, h11, h12, hfwd, maybeStep, andThen,
      runStep, hrun1]
    rw [if_pos ⟨hmod, hst⟩]
    simp only [runStep, hrun2]
    exact ⟨_, rfl⟩

/-- Witness for C9: each of the three flag families at a concrete state:
`forward=false`, `masquerade=false` and `icmp_block_inversion=false` with
`state=present` each run both transactions — the respective flag gets
enabled (`c1 = true`, visible in the mutated result state) — yet the
invocation reports `changed = false`, the zone transaction's flag. -/
theorem firewalld_C9_witness :
    (∃ msgs, mainRun (fun r => r) false c4Params publicDefaultState =
      Except.ok (forwardOnState, false, msgs)) ∧
    (∃ msgs, mainRun (fun r => r) false c9MasqParams publicDefaultState =
      Except.ok (masqueradeOnState, false, msgs)) ∧
    (∃ msgs, mainRun (fun r => r) false c9InvParams publicDefaultState =
      Except.ok (inversionOnState, false, msgs)) :=
  ⟨(firewalld_C9 (fun r => r) false c4Params publicDefaultState true false
      rfl rfl rfl rfl rfl rfl rfl rfl rfl rfl rfl (Or.inr rfl)).1
      forwardOnState forwardOnState true false ["Added forward to zone public"] []
      rfl rfl rfl (by rfl) (by rfl),
   (firewalld_C9 (fun r => r) false c9MasqParams publicDefaultState true false
      rfl rfl rfl rfl rfl rfl rfl rfl rfl rfl rfl (Or.inr rfl)).2.1
      masqueradeOnState masqueradeOnState true false ["Added masquerade to zone public"] []
      rfl rfl rfl (by rfl) (by rfl),
   (firewalld_C9 (fun r => r) false c9InvParams publicDefaultState true false
      rfl rfl rfl rfl rfl rfl rfl rfl rfl rfl rfl (Or.inr rfl)).2.2
      inversionOnState inversionOnState true false [""] []
      rfl rfl rfl (by rfl) (by rfl)⟩

/-- C5: for the zone-target kind and the bare zone-existence kind, every
immediate-layer operation (`get_enabled_immediate`, `set_enabled_immediate`,
`set_disabled_immediate`) fails fatally with the non-retryable message
`Zone operations must be permanent. ...`; since the operations return an
error, no layer is mutated by such a call. -/
theorem firewalld_C5 (canon : String → String) (t : Tx) (s : FirewallState)
    (h : (∃ tgt, t.kind = RuleKind.zoneTarget tgt) ∨ t.kind = RuleKind.zoneExistence) :
    getEnabledImmediate canon t s = Except.error zoneTxNotPermanentMsg ∧
    setEnabledImmediate canon t s = Except.error zoneTxNotPermanentMsg ∧
    setDisabledImmediate canon t s = Except.error zoneTxNotPermanentMsg := by
  rcases h with ⟨tgt, hk⟩ | hk <;>
    exact ⟨by simp [getEnabledImmediate, hk], by simp [setEnabledImmediate, hk],
      by simp [setDisabledImmediate, hk]⟩

/-- Witness for C5: the zone-target transaction of `main` on a concrete
state. -/
theorem firewalld_C5_witness :
    getEnabledImmediate (fun r => r) (mkZoneTargetTx "ACCEPT" "public" "present" true true false 0)
        { runtime := [], permanent := [] } = Except.error zoneTxNotPermanentMsg ∧
    setEnabledImmediate (fun r => r) (mkZoneTargetTx "ACCEPT" "public" "present" true true false 0)
        { runtime := [], permanent := [] } = Except.error zoneTxNotPermanentMsg ∧
    setDisabledImmediate (fun r => r) (mkZoneTargetTx "ACCEPT" "public" "present" true true false 0)
        { runtime := [], permanent := [] } = Except.error zoneTxNotPermanentMsg :=
  firewalld_C5 (fun r => r) (mkZoneTargetTx "ACCEPT" "public" "present" true true false 0)
    { runtime := [], permanent := [] } (Or.inl ⟨"ACCEPT", rfl⟩)

/-- C6: the layer-flag defaulting of `main`: a bare invocation (no layer
flag, daemon running, no offline request) targets the live layer; offline
with permanent while the daemon is unreachable forces immediate off;
offline without permanent is a fatal configuration error; and an invocation
that after defaulting targets the immediate layer while the daemon is not
running is a fatal error. -/
theorem firewalld_C6 (o p i f : Bool) :
    (o = false → p = false → i = false → f = false →
      resolveLayers o p i f = Except.ok (false, true)) ∧
    (o = true → p = true → f = true →
      resolveLayers o p i f = Except.ok (true, false)) ∧
    (o = true → p = false →
      resolveLayers o p i f =
        Except.error "offline cannot be enabled unless permanent changes are allowed") ∧
    (o = false → f = true → (i = true ∨ p = false) →
      resolveLayers o p i f =
        Except.error "firewall is not currently running, unable to perform immediate actions without a running firewall daemon") := by
  cases o <;> cases p <;> cases i <;> cases f <;>
    simp [resolveLayers]

/-- Witness for C6: each defaulting rule exercised at a concrete flag
combination. -/
theorem firewalld_C6_witness :
    resolveLayers false false false false = Except.ok (false, true) ∧
    resolveLayers true true true true = Except.ok (true, false) ∧
    resolveLayers true false false false =
      Except.error "offline cannot be enabled unless permanent changes are allowed" ∧
    resolveLayers false true true true =
      Except.error "firewall is not currently running, unable to perform immediate actions without a running firewall daemon" :=
  ⟨(firewalld_C6 false false false false).1 rfl rfl rfl rfl,
   (firewalld_C6 true true true true).2.1 rfl rfl rfl,
   (firewalld_C6 true false false false).2.2.1 rfl rfl,
   (firewalld_C6 false true true true).2.2.2 rfl rfl (Or.inl rfl)⟩

/-- C8: boolean-flag normalization symmetry: `state=enabled, flag=false`
and `state=disabled, flag=true` yield the same effective desired state
(both `disabled`), hence for each of the forward, masquerade and
icmp-block-inversion kinds the transaction `main` constructs is identical
and its outcome on every firewall state is the same. -/
theorem firewalld_C8 (canon : String → String) (zone : String) (perm imm fwo : Bool)
    (timeout : Nat) (s : FirewallState) :
    normalizeFlagState "enabled" false = normalizeFlagState "disabled" true ∧
    runTransaction canon (mkTx RuleKind.forward zone (normalizeFlagState "enabled" false) perm imm fwo timeout) s =
      runTransaction canon (mkTx RuleKind.forward zone (normalizeFlagState "disabled" true) perm imm fwo timeout) s ∧
    runTransaction canon (mkTx RuleKind.masquerade zone (normalizeFlagState "enabled" false) perm imm fwo timeout) s =
      runTransaction canon (mkTx RuleKind.masquerade zone (normalizeFlagState "disabled" true) perm imm fwo timeout) s ∧
    runTransaction canon (mkTx RuleKind.icmpBlockInversion zone (normalizeFlagState "enabled" false) perm imm fwo timeout) s =
      runTransaction canon (mkTx RuleKind.icmpBlockInversion zone (normalizeFlagState "disabled" true) perm imm fwo timeout) s := by
  have h : normalizeFlagState "enabled" false = normalizeFlagState "disabled" true := rfl
  exact ⟨h, by rw [h], by rw [h], by rw [h]⟩

end Firewalld
